import Mathlib

/-! # PAPPL device transport and system runtime

A shallow embedding of `pappl/system.c` and `pappl/device.c`.  C strings are lists of
characters (one character per byte, no embedded NUL), `NULL` pointers are `Option.none`,
`int`/`ssize_t`/`time_t` values are `Int`, unsigned bytes are `Nat` reduced modulo 256 where
they are read, and calls into the operating system, libusb and CUPS are oracles supplied by
the caller of the embedded function.
-/

namespace Pappl

/-! ## printf-style formatting -/

/-- The characters stored by `snprintf(buf, size, ...)` for a fully formatted text `s`:
at most `size - 1` characters (the last byte of the buffer holds the terminator). -/
def snprintf (size : Nat) (s : List Char) : List Char :=
  s.take (size - 1)

/-- Left-pads a digit list with `'0'` up to `width` characters (`%0<width>...`). -/
def zeroPad (width : Nat) (digits : List Char) : List Char :=
  List.replicate (width - digits.length) '0' ++ digits

/-- Conversion `%02x`: lowercase hexadecimal, at least two digits. -/
def fmt02x (v : Nat) : List Char :=
  zeroPad 2 (Nat.toDigits 16 v)

/-- Conversion `%08x` of an `unsigned`: lowercase hexadecimal, at least eight digits. -/
def fmt08x (v : Nat) : List Char :=
  zeroPad 8 (Nat.toDigits 16 v)

/-- Conversion `%d` of an `int`. -/
def fmt_d (v : Int) : List Char :=
  match v with
  | Int.ofNat m => Nat.toDigits 10 m
  | Int.negSucc m => '-' :: Nat.toDigits 10 (m + 1)

/-- Conversion `%s`; glibc prints `(null)` for a `NULL` argument. -/
def fmt_s (s : Option (List Char)) : List Char :=
  match s with
  | some t => t
  | none => "(null)".toList

/-! ## system.c : data model -/

/-- Log levels of `pappl_loglevel_t`. -/
inductive pappl_loglevel_t where
  | UNSPEC | DEBUG | INFO | WARN | ERROR | FATAL
  deriving DecidableEq, Repr

/-- The fields of `pappl_printer_t` read by the main loop. -/
structure pappl_printer_t where
  /-- Flag `printer->dns_sd_collision`. -/
  dns_sd_collision : Bool
  /-- Value of `cupsArrayCount(printer->active_jobs)`. -/
  active_jobs : Nat
  deriving DecidableEq, Repr

/-- Observable effects of the system runtime, in program order. -/
inductive SysEvent where
  | log (level : pappl_loglevel_t) (message : List Char)
  | perror (what : List Char)
  | initDNSSD
  | setServerCredentials (hostname : List Char)
  | mkdir (path : List Char)
  | openLog (path : List Char)
  | addResource (path : List Char)
  | signalHandlers
  | poll
  | clientCreate (listener : Nat)
  | threadCreate (listener : Nat)
  | threadDetach (listener : Nat)
  | clientDelete (listener : Nat)
  | rdlock
  | wrlock
  | unlock
  | printerRdlock (index : Nat)
  | printerUnlock (index : Nat)
  | registerSystemDNSSD
  | registerPrinterDNSSD (index : Nat)
  | saveCallback
  | cleanJobs
  | systemDelete
  deriving DecidableEq, Repr

/-- The fields of `pappl_system_t` used by `system.c`. -/
structure pappl_system_t where
  options : Nat
  start_time : Int
  uuid : Option (List Char)
  name : List Char
  hostname : Option (List Char)
  port : Int
  directory : Option (List Char)
  logfd : Int
  logfile : Option (List Char)
  loglevel : pappl_loglevel_t
  next_client : Int
  next_printer_id : Int
  tls_only : Bool
  admin_gid : Int
  subtypes : Option (List Char)
  auth_service : Option (List Char)
  firmware_name : Option (List Char)
  firmware_sversion : Option (List Char)
  server_header : Option (List Char)
  is_running : Bool
  num_listeners : Nat
  printers : List pappl_printer_t
  dns_sd_any_collision : Bool
  dns_sd_collision : Bool
  save_time : Int
  /-- Whether `system->save_cb` is non-NULL. -/
  save_cb : Bool
  shutdown_time : Int
  clean_time : Int
  /-- Effects performed on behalf of this system so far. -/
  trace : List SysEvent

/-- The state of a freshly `calloc`ed `pappl_system_t`: every field zero. -/
def pappl_system_t.zeroed : pappl_system_t where
  options := 0
  start_time := 0
  uuid := none
  name := []
  hostname := none
  port := 0
  directory := none
  logfd := 0
  logfile := none
  loglevel := pappl_loglevel_t.UNSPEC
  next_client := 0
  next_printer_id := 0
  tls_only := false
  admin_gid := 0
  subtypes := none
  auth_service := none
  firmware_name := none
  firmware_sversion := none
  server_header := none
  is_running := false
  num_listeners := 0
  printers := []
  dns_sd_any_collision := false
  dns_sd_collision := false
  save_time := 0
  save_cb := false
  shutdown_time := 0
  clean_time := 0
  trace := []

/-- Call `papplLog(system, level, message)`: recorded in the trace of effects. -/
def papplLog (system : pappl_system_t) (level : pappl_loglevel_t) (message : List Char) :
    pappl_system_t :=
  { system with trace := system.trace ++ [SysEvent.log level message] }

/-- Appends one effect to the trace. -/
def pappl_system_t.emit (system : pappl_system_t) (e : SysEvent) : pappl_system_t :=
  { system with trace := system.trace ++ [e] }

/-! ## system.c : `_papplSystemMakeUUID` -/

/-- The random source read by `_papplGetRand`: a sequence of values and the read position. -/
structure RandState where
  seq : Nat → Nat
  pos : Nat

/-- Modelled from the spec: `_papplGetRand` is defined outside the given sources; each call
yields the next "random 32-bit quantity" of the source and advances it. -/
def _papplGetRand (r : RandState) : Nat × RandState :=
  (r.seq r.pos % 2 ^ 32, { r with pos := r.pos + 1 })

/-- The source string `data[1024]` built by `_papplSystemMakeUUID` (the three `snprintf`
branches), together with the random source after the calls it made. -/
def _papplSystemMakeUUID_data (system : pappl_system_t) (printer_name : Option (List Char))
    (job_id : Int) (rand : RandState) : List Char × RandState :=
  match printer_name with
  | some pn =>
    if job_id ≠ 0 then
      let (r0, rand1) := _papplGetRand rand
      (snprintf 1024 ("_PAPPL_JOB_:".toList ++ fmt_s system.uuid ++ ":".toList
          ++ fmt_d system.port ++ ":".toList ++ pn ++ ":".toList ++ fmt_d job_id
          ++ ":".toList ++ fmt08x r0), rand1)
    else
      (snprintf 1024 ("_PAPPL_PRINTER_:".toList ++ fmt_s system.uuid ++ ":".toList
          ++ fmt_d system.port ++ ":".toList ++ pn), rand)
  | none =>
    let (r0, rand1) := _papplGetRand rand
    let (r1, rand2) := _papplGetRand rand1
    let (r2, rand3) := _papplGetRand rand2
    let (r3, rand4) := _papplGetRand rand3
    (snprintf 1024 ("_PAPPL_SYSTEM_:".toList ++ fmt08x r0 ++ ":".toList ++ fmt08x r1
        ++ ":".toList ++ fmt08x r2 ++ ":".toList ++ fmt08x r3), rand4)

/-- The fully formatted UUID text for a digest `sha256` (bytes are `unsigned char`, hence
read modulo 256): the `snprintf` format of `_papplSystemMakeUUID` before truncation. -/
def uuidText (sha256 : Nat → Nat) : List Char :=
  let b : Nat → Nat := fun i => sha256 i % 256
  "urn:uuid:".toList
    ++ fmt02x (b 0) ++ fmt02x (b 1) ++ fmt02x (b 3) ++ fmt02x (b 4) ++ "-".toList
    ++ fmt02x (b 5) ++ fmt02x (b 6) ++ "-".toList
    ++ fmt02x ((b 10 &&& 15) ||| 0x30) ++ fmt02x (b 11) ++ "-".toList
    ++ fmt02x ((b 15 &&& 0x3f) ||| 0x40) ++ fmt02x (b 16) ++ "-".toList
    ++ fmt02x (b 20) ++ fmt02x (b 21) ++ fmt02x (b 25) ++ fmt02x (b 26)
    ++ fmt02x (b 30) ++ fmt02x (b 31)

/-- Function `_papplSystemMakeUUID`: builds the key, hashes it with `cupsHashData("sha-256")`
(a parameter: a function from the key to the 32 digest bytes) and formats the digest into
`buffer` of `bufsize` bytes.  Returns the buffer text and the random source afterwards. -/
def _papplSystemMakeUUID (cupsHashData : List Char → Nat → Nat) (system : pappl_system_t)
    (printer_name : Option (List Char)) (job_id : Int) (bufsize : Nat) (rand : RandState) :
    List Char × RandState :=
  let (data, rand1) := _papplSystemMakeUUID_data system printer_name job_id rand
  let sha256 := cupsHashData data
  (snprintf bufsize (uuidText sha256), rand1)

/-! ## system.c : `papplSystemCreate` -/

/-- Conversion of an unsigned value to `int` (two's complement, 32 bits). -/
def toInt32 (n : Nat) : Int :=
  if n % 2 ^ 32 < 2 ^ 31 then ((n % 2 ^ 32 : Nat) : Int) else ((n % 2 ^ 32 : Nat) : Int) - 2 ^ 32

/-- Value of `EEXIST` in `<errno.h>`. -/
def EEXIST : Nat := 17

/-- What `papplSystemCreate` obtains from the C library, the operating system and CUPS. -/
structure CreateEnv where
  /-- Whether `calloc` returns memory. -/
  callocOk : Bool
  /-- Reading of `time(NULL)` stored in `start_time`. -/
  time0 : Int
  /-- Reading of `time(NULL)` stored in `save_time`. -/
  time1 : Int
  /-- Result of `getuid()`. -/
  uid : Nat
  /-- The host name from Avahi or `httpGetHostname`. -/
  autoHostname : List Char
  /-- Value of `getenv("TMPDIR")`. -/
  TMPDIR : Option (List Char)
  /-- Whether `__APPLE__` is defined. -/
  apple : Bool
  /-- Result of `mkdir(path, 0700)` and the `errno` it leaves. -/
  mkdir : List Char → Int × Nat
  /-- Result of `open(path, O_CREAT | O_WRONLY | O_APPEND | O_NOFOLLOW | O_CLOEXEC, 0600)`. -/
  openLog : List Char → Int
  /-- Digest function `cupsHashData("sha-256", ...)`. -/
  cupsHashData : List Char → Nat → Nat
  /-- The random source. -/
  rand : RandState

/-- The log-target part of `papplSystemCreate` (lines 146-172): default log file name and the
choice of `logfd`. -/
def papplSystemCreate_log (env : CreateEnv) (tmpdir : List Char) (system : pappl_system_t) :
    pappl_system_t :=
  let logfile : List Char :=
    match system.logfile with
    | some f => f
    | none => snprintf 256 (tmpdir ++ "/pappl".toList ++ fmt_d (toInt32 env.uid) ++ ".log".toList)
  let system := { system with logfile := some logfile }
  if logfile = "syslog".toList then
    { system with logfd := -1 }
  else if logfile = "-".toList then
    { system with logfd := 2 }
  else
    let fd := env.openLog logfile
    let system := system.emit (SysEvent.openLog logfile)
    if fd < 0 then
      { (system.emit (SysEvent.perror logfile)) with logfd := 2 }
    else
      { system with logfd := fd }

/-- Lines 63-84 of `papplSystemCreate`: the initial values of the fields. -/
def papplSystemCreate_init (env : CreateEnv) (options : Nat) (uuid : Option (List Char))
    (name : List Char) (hostname : Option (List Char)) (port : Int)
    (subtypes : Option (List Char)) (spooldir : Option (List Char))
    (logfile : Option (List Char)) (loglevel : pappl_loglevel_t)
    (auth_service : Option (List Char)) (tls_only : Bool) : pappl_system_t :=
  { pappl_system_t.zeroed with
    options := options
    start_time := env.time0
    uuid := uuid
    name := name
    hostname := hostname
    port := if port ≠ 0 then port else 8000 + ((env.uid % 2 ^ 32 % 1000 : Nat) : Int)
    directory := spooldir
    logfd := 2
    logfile := logfile
    loglevel := loglevel
    next_client := 1
    next_printer_id := 1
    tls_only := tls_only
    admin_gid := -1
    subtypes := subtypes
    auth_service := auth_service }

/-- Lines 86-107 of `papplSystemCreate`: DNS-SD, host name and TLS credentials. -/
def papplSystemCreate_hostname (env : CreateEnv) (system : pappl_system_t) : pappl_system_t :=
  let system := system.emit SysEvent.initDNSSD
  let host : List Char :=
    match system.hostname with
    | some h => h
    | none => env.autoHostname
  let system := { system with hostname := some host }
  system.emit (SysEvent.setServerCredentials host)

/-- Lines 109-117 of `papplSystemCreate`: make sure the system UUID is set. -/
def papplSystemCreate_uuid (env : CreateEnv) (system : pappl_system_t) :
    pappl_system_t × RandState :=
  match system.uuid with
  | some _ => (system, env.rand)
  | none =>
    let r := _papplSystemMakeUUID env.cupsHashData system none 0 64 env.rand
    ({ system with uuid := some r.1, save_time := env.time1 }, r.2)

/-- Lines 120-125 of `papplSystemCreate`: the temporary directory. -/
def papplSystemCreate_tmpdir (env : CreateEnv) : List Char :=
  match env.TMPDIR with
  | some t => t
  | none => if env.apple then "/private/tmp".toList else "/tmp".toList

/-- Lines 127-140 of `papplSystemCreate`: the spool directory; `none` when it cannot be
created (`goto fatal`). -/
def papplSystemCreate_directory (env : CreateEnv) (system : pappl_system_t) :
    Option pappl_system_t :=
  let directory : List Char :=
    match system.directory with
    | some d => d
    | none =>
      snprintf 256 (papplSystemCreate_tmpdir env ++ "/pappl".toList
        ++ fmt_d (toInt32 env.uid) ++ ".d".toList)
  let system := { system with directory := some directory }
  let system := system.emit (SysEvent.mkdir directory)
  if (env.mkdir directory).1 ≠ 0 ∧ (env.mkdir directory).2 ≠ EEXIST then none
  else some system

/-- Lines 143-144 of `papplSystemCreate`: the default log level. -/
def papplSystemCreate_loglevel (system : pappl_system_t) : pappl_system_t :=
  if system.loglevel = pappl_loglevel_t.UNSPEC then
    { system with loglevel := pappl_loglevel_t.ERROR }
  else system

/-- Lines 175-179 of `papplSystemCreate`: the authentication service `none`. -/
def papplSystemCreate_auth (system : pappl_system_t) : pappl_system_t :=
  if system.auth_service = some "none".toList then { system with auth_service := none }
  else system

/-- Function `papplSystemCreate`.  Returns the new system (`none` for the C `NULL`) and the
random source afterwards. -/
def papplSystemCreate (env : CreateEnv) (options : Nat) (uuid : Option (List Char))
    (name : Option (List Char)) (hostname : Option (List Char)) (port : Int)
    (subtypes : Option (List Char)) (spooldir : Option (List Char))
    (logfile : Option (List Char)) (loglevel : pappl_loglevel_t)
    (auth_service : Option (List Char)) (tls_only : Bool) :
    Option pappl_system_t × RandState :=
  match name with
  | none => (none, env.rand)
  | some nm =>
    if env.callocOk = false then (none, env.rand)
    else
      let system := papplSystemCreate_init env options uuid nm hostname port subtypes
        spooldir logfile loglevel auth_service tls_only
      let system := papplSystemCreate_hostname env system
      let r := papplSystemCreate_uuid env system
      match papplSystemCreate_directory env r.1 with
      | none => (none, r.2)
      | some system =>
        let system := papplSystemCreate_loglevel system
        let system := papplSystemCreate_log env (papplSystemCreate_tmpdir env) system
        (some (papplSystemCreate_auth system), r.2)

/-! ## system.c : `papplSystemRun` -/

/-- Bit `POLLIN` of `revents`. -/
def POLLIN : Nat := 1

/-- Value of `EINTR` in `<errno.h>`. -/
def EINTR : Nat := 4

/-- Value of `EAGAIN` in `<errno.h>`. -/
def EAGAIN : Nat := 11

/-- What one listener reports in one iteration of the main loop. -/
structure ListenerInput where
  /-- Field `revents` filled in by `poll`. -/
  revents : Nat
  /-- Whether `papplClientCreate` returns a client. -/
  clientCreated : Bool
  /-- Whether `pthread_create` returns non-zero. -/
  threadFailed : Bool

/-- What the main loop observes in one iteration. -/
structure LoopInput where
  /-- Changes made to the system by other threads since the previous iteration. -/
  concurrent : pappl_system_t → pappl_system_t
  /-- Whether SIGTERM or SIGINT was delivered before the loop test. -/
  signal : Bool
  /-- Return value of `poll`. -/
  pollCount : Int
  /-- Value of `errno` after `poll`. -/
  pollErrno : Nat
  /-- Per-listener observations, in listener order. -/
  listeners : List ListenerInput
  /-- Text of `strerror(errno)`. -/
  strerror : List Char
  /-- Reading of `time(NULL)` in the shutdown step. -/
  timeShutdown : Int
  /-- Reading of `time(NULL)` in the clean-up step. -/
  timeClean : Int

/-- Function `sigterm_handler`: sets the static flag `shutdown_system`. -/
def sigterm_handler (_shutdown_system : Bool) : Bool := true

/-- The accept loop over the listeners (lines 299-322). -/
def acceptClients (inp : LoopInput) (system : pappl_system_t) : pappl_system_t :=
  (List.range system.num_listeners).foldl
    (fun s i =>
      match inp.listeners.get? i with
      | none => s
      | some l =>
        if l.revents &&& POLLIN ≠ 0 then
          let s := s.emit (SysEvent.clientCreate i)
          if l.clientCreated then
            let s := s.emit (SysEvent.threadCreate i)
            if l.threadFailed then
              (papplLog s pappl_loglevel_t.ERROR
                ("Unable to create client thread: ".toList ++ inp.strerror)).emit
                (SysEvent.clientDelete i)
            else s.emit (SysEvent.threadDetach i)
          else s
        else s)
    system

/-- The DNS-SD collision step (lines 324-342).  The two registration functions live outside
the given sources and appear as effects only. -/
def handleCollisions (system : pappl_system_t) : pappl_system_t :=
  if system.dns_sd_any_collision then
    let s := system.emit SysEvent.rdlock
    let s := if s.dns_sd_collision then s.emit SysEvent.registerSystemDNSSD else s
    let s := (List.range s.printers.length).foldl
      (fun s i =>
        match system.printers.get? i with
        | some p => if p.dns_sd_collision then s.emit (SysEvent.registerPrinterDNSSD i) else s
        | none => s)
      s
    let s := { s with dns_sd_any_collision := false }
    s.emit SysEvent.unlock
  else system

/-- The configuration-save step (lines 344-353). -/
def handleSave (system : pappl_system_t) : pappl_system_t :=
  if system.save_time ≠ 0 then
    let s := if system.save_cb then system.emit SysEvent.saveCallback else system
    { s with save_time := 0 }
  else system

/-- The sum of `cupsArrayCount(printer->active_jobs)` over the printers, taking each
printer's lock in turn (lines 366-373). -/
def countActiveJobs (system : pappl_system_t) : pappl_system_t × Int :=
  let s := system.emit SysEvent.rdlock
  let r := (List.range system.printers.length).foldl
    (fun (acc : pappl_system_t × Int) i =>
      match system.printers.get? i with
      | some p =>
        (((acc.1.emit (SysEvent.printerRdlock i)).emit (SysEvent.printerUnlock i)),
          acc.2 + (p.active_jobs : Int))
      | none => acc)
    (s, 0)
  (r.1.emit SysEvent.unlock, r.2)

/-- Outcome of one pass through the body of the main loop. -/
inductive LoopStep where
  /-- The body ran to its end; the loop test is evaluated next. -/
  | next (system : pappl_system_t)
  /-- A `break` left the loop. -/
  | exit (system : pappl_system_t)

/-- The shutdown and clean-up steps (lines 355-381). -/
def handleShutdown (inp : LoopInput) (system : pappl_system_t) : LoopStep :=
  let clean (s : pappl_system_t) : LoopStep :=
    if s.clean_time ≠ 0 ∧ inp.timeClean ≥ s.clean_time then
      LoopStep.next (s.emit SysEvent.cleanJobs)
    else LoopStep.next s
  if system.shutdown_time ≠ 0 then
    if inp.timeShutdown - system.shutdown_time > 60 then
      LoopStep.exit system
    else
      let (s, count) := countActiveJobs system
      if count = 0 then LoopStep.exit s else clean s
  else clean system

/-- The body of `while (!shutdown_system)` (lines 293-381). -/
def loopBody (inp : LoopInput) (system : pappl_system_t) : LoopStep :=
  let system := system.emit SysEvent.poll
  if inp.pollCount < 0 ∧ inp.pollErrno ≠ EINTR ∧ inp.pollErrno ≠ EAGAIN then
    LoopStep.exit (papplLog system pappl_loglevel_t.ERROR
      ("Unable to accept new connections: ".toList ++ inp.strerror))
  else
    let system := if inp.pollCount > 0 then acceptClients inp system else system
    let system := handleCollisions system
    let system := handleSave system
    handleShutdown inp system

/-- State of a call of `papplSystemRun`. -/
structure RunState where
  /-- The system object. -/
  system : pappl_system_t
  /-- The static flag `shutdown_system`. -/
  shutdown_system : Bool
  /-- Whether the loop has been left (`false`: the observations ended while it was running). -/
  left : Bool

/-- The loop `while (!shutdown_system)` run over a finite list of per-iteration
observations. -/
def mainLoop (system : pappl_system_t) (shutdown_system : Bool) :
    List LoopInput → RunState
  | [] => { system := system, shutdown_system := shutdown_system, left := false }
  | inp :: rest =>
    let system := inp.concurrent system
    let flag := if inp.signal then sigterm_handler shutdown_system else shutdown_system
    if flag then { system := system, shutdown_system := flag, left := true }
    else
      match loopBody inp system with
      | LoopStep.exit s => { system := s, shutdown_system := flag, left := true }
      | LoopStep.next s => mainLoop s flag rest

/-- Function `papplSystemRun`.  `version` is the macro `PAPPL_VERSION`; the result is `none`
for a `NULL` system and otherwise the state when the call returns, or, when the
observations end first, the state reached inside the loop (`left = false`). -/
def papplSystemRun (version : List Char) (system : Option pappl_system_t)
    (shutdown_system : Bool) (inputs : List LoopInput) : Option RunState :=
  match system with
  | none => none
  | some system =>
    if !system.is_running then
      some { system := papplLog system pappl_loglevel_t.FATAL
               "Tried to run main loop when already running.".toList
             shutdown_system := shutdown_system, left := true }
    else if system.num_listeners = 0 then
      some { system := papplLog system pappl_loglevel_t.FATAL
               "Tried to run main loop without listeners.".toList
             shutdown_system := shutdown_system, left := true }
    else
      let system := { system with is_running := true }
      let system := system.emit (SysEvent.addResource "/apple-touch-icon.png".toList)
      let system := system.emit (SysEvent.addResource "/nav-icon.png".toList)
      let system := system.emit (SysEvent.addResource "/icon-lg.png".toList)
      let system := system.emit (SysEvent.addResource "/icon-md.png".toList)
      let system := system.emit (SysEvent.addResource "/icon-sm.png".toList)
      let system := system.emit (SysEvent.addResource "/style.css".toList)
      let system := papplLog system pappl_loglevel_t.INFO "Starting main loop.".toList
      let system := system.emit SysEvent.signalHandlers
      let header : List Char :=
        match system.firmware_name with
        | some fw =>
          snprintf 256 (fw ++ "/".toList ++ fmt_s system.firmware_sversion
            ++ " PAPPL/".toList ++ version ++ " CUPS IPP/2.0".toList)
        | none =>
          snprintf 256 ("Unknown PAPPL/".toList ++ version ++ " CUPS IPP/2.0".toList)
      let system := { system with server_header := some header }
      let st := mainLoop system shutdown_system inputs
      if st.left then
        let s := papplLog st.system pappl_loglevel_t.INFO "Shutting down main loop.".toList
        let s := if s.save_time ≠ 0 ∧ s.save_cb then s.emit SysEvent.saveCallback else s
        some { st with system := { s with is_running := false } }
      else some st

/-! ## device.c : device handle, read and write -/

/-- Observable effects of the device layer, in program order. -/
inductive DevEvent where
  /-- The error callback `(*err_cb)(message, err_data)` was invoked. -/
  | errorSink (message : List Char)
  /-- Call `open(resource, O_RDWR | O_EXCL)`. -/
  | fileOpen (resource : List Char)
  /-- Call `httpAddrGetList(host, AF_UNSPEC, port)`. -/
  | addrGetList (host : List Char) (port : List Char)
  /-- Call `httpAddrConnect2`. -/
  | addrConnect
  /-- Call `libusb_init`. -/
  | usbInit
  /-- Call `libusb_open` on the device with this index in the device list. -/
  | usbOpen (index : Nat)
  /-- Call `libusb_close`. -/
  | usbClose (index : Nat)
  /-- The device callback `(*cb)(device_uri, data)` was invoked. -/
  | callback (device_uri : List Char)
  deriving DecidableEq, Repr

/-- Structure `struct _pappl_device_s` (with `HAVE_LIBUSB`).  `device` is the index of the
libusb device in the device list and `handle` tells whether a libusb handle is open. -/
structure pappl_device_t where
  fd : Int
  device : Option Nat
  handle : Bool
  conf : Int
  origconf : Int
  iface : Int
  ifacenum : Int
  altset : Int
  write_endp : Int
  read_endp : Int
  protocol : Int
  deriving DecidableEq, Repr

/-- A `calloc`ed device structure. -/
def pappl_device_t.zeroed : pappl_device_t where
  fd := 0
  device := none
  handle := false
  conf := 0
  origconf := 0
  iface := 0
  ifacenum := 0
  altset := 0
  write_endp := 0
  read_endp := 0
  protocol := 0

/-- Outcome of one call of `read(2)` or `write(2)`: a byte count, or `-1` with `errno`. -/
inductive IoResult where
  | ok (count : Nat)
  | error (errno : Nat)
  deriving DecidableEq, Repr

/-- Whether the outcome is a failure with `errno` equal to `EINTR` or `EAGAIN`. -/
def IoResult.retryable : IoResult → Bool
  | IoResult.ok _ => false
  | IoResult.error e => e = EINTR || e = EAGAIN

/-- Whether the outcome is a failure with any other `errno`. -/
def IoResult.fatal : IoResult → Bool
  | IoResult.ok _ => false
  | IoResult.error e => !(e = EINTR || e = EAGAIN)

/-- The value `read`/`write` returns for an outcome. -/
def IoResult.value : IoResult → Int
  | IoResult.ok c => (c : Int)
  | IoResult.error _ => -1

/-- Outcome of `libusb_bulk_transfer`: its return value and the transferred count. -/
structure BulkResult where
  status : Int
  count : Int

/-- Conversion of a `size_t` value to `ssize_t` (two's complement, 64 bits). -/
def toSsize (n : Nat) : Int :=
  if n % 2 ^ 64 < 2 ^ 63 then ((n % 2 ^ 64 : Nat) : Int) else ((n % 2 ^ 64 : Nat) : Int) - 2 ^ 64

/-- The loop `while ((count = read(...)) < 0) if (errno != EINTR && errno != EAGAIN) break;`
over the successive outcomes of `read`, followed by `return (count)`.  The result is `none`
when the outcomes end while the loop is still retrying. -/
def readLoop : List IoResult → Option Int
  | [] => none
  | IoResult.ok c :: _ => some (c : Int)
  | IoResult.error e :: rest =>
    if e ≠ EINTR ∧ e ≠ EAGAIN then some (-1) else readLoop rest

/-- Function `papplDeviceRead`: `reads` are the successive outcomes of `read(device->fd, ...)`
and `bulk` the outcome of the libusb transfer. -/
def papplDeviceRead (device : Option pappl_device_t) (reads : List IoResult)
    (bulk : BulkResult) : Option Int :=
  match device with
  | none => some (-1)
  | some d =>
    if d.fd ≥ 0 then readLoop reads
    else if d.handle then
      if bulk.status < 0 then some (-1) else some bulk.count
    else some (-1)

/-- The loop `while (total < bytes)` of `papplDeviceWrite` over the successive outcomes of
`write(device->fd, ptr, bytes - total)`, followed by `return ((ssize_t)total)`.  The result is
`none` when the outcomes end while the loop is still running. -/
def writeLoop (bytes : Nat) : Nat → List IoResult → Option Int
  | total, [] => if total < bytes then none else some (toSsize total)
  | total, o :: rest =>
    if total < bytes then
      match o with
      | IoResult.error e =>
        if e = EINTR ∨ e = EAGAIN then writeLoop bytes total rest else some (-1)
      | IoResult.ok count => writeLoop bytes (total + count) rest
    else some (toSsize total)

/-- Function `papplDeviceWrite` for a request of `bytes` bytes. -/
def papplDeviceWrite (device : Option pappl_device_t) (bytes : Nat) (writes : List IoResult)
    (bulk : BulkResult) : Option Int :=
  match device with
  | none => some (-1)
  | some d =>
    if d.fd ≥ 0 then writeLoop bytes 0 writes
    else if d.handle then
      if bulk.status < 0 then some (-1) else some bulk.count
    else some (-1)

/-- Function `pappl_error`: formats the message and passes it to the error callback, unless
the callback is `NULL` (`err_cb = false`).  The formatted message is cut to the 8192-byte
buffer. -/
def pappl_error (err_cb : Bool) (trace : List DevEvent) (message : List Char) :
    List DevEvent :=
  if !err_cb then trace
  else trace ++ [DevEvent.errorSink (snprintf 8192 message)]

/-! ## device.c : C strings in a character buffer -/

/-- The terminator `'\0'`. -/
def NUL : Char := Char.ofNat 0

/-- The C string that starts at offset `p` of the buffer `buf`. -/
def cstr (buf : List Char) (p : Nat) : List Char :=
  (buf.drop p).takeWhile (fun c => c != NUL)

/-- Index of the first occurrence of `needle` in `hay`. -/
def findSub (needle : List Char) : List Char → Option Nat
  | [] => if needle = [] then some 0 else none
  | c :: cs =>
    if needle.isPrefixOf (c :: cs) then some 0 else (findSub needle cs).map (fun k => k + 1)

/-- Index of the first occurrence of the character `c` in `hay`. -/
def findChar (c : Char) : List Char → Option Nat
  | [] => none
  | x :: xs => if x = c then some 0 else (findChar c xs).map (fun k => k + 1)

/-- Call `strstr(buf + p, needle)`: the offset in `buf` of the first occurrence. -/
def strstr (buf : List Char) (p : Nat) (needle : List Char) : Option Nat :=
  (findSub needle (cstr buf p)).map (fun k => k + p)

/-- Call `strchr(buf + p, c)` for a character `c` other than the terminator. -/
def strchr (buf : List Char) (p : Nat) (c : Char) : Option Nat :=
  (findChar c (cstr buf p)).map (fun k => k + p)

/-- The statement `if ((ptr = strchr(buf + p, ';')) != NULL) *ptr = '\0';`. -/
def terminateAtSemicolon (buf : List Char) (p : Nat) : List Char :=
  match strchr buf p ';' with
  | some q => buf.set q NUL
  | none => buf

/-! ## device.c : IEEE-1284 device ID -/

/-- The value of `length` after lines 625-632 of `pappl_find_usb`, for the leading bytes
`b0 = device_id[0]` and `b1 = device_id[1]`; `sizeof(device_id)` is 1024. -/
def deviceIdLength (b0 b1 : Nat) : Int :=
  let length : Nat := ((b0 &&& 255) <<< 8) ||| (b1 &&& 255)
  let length : Nat :=
    if length < 14 ∨ length > 1024 then ((b1 &&& 255) <<< 8) ||| (b0 &&& 255) else length
  let length : Nat := if length > 1024 then 1024 else length
  (length : Int) - 2

/-- The 1024-byte array `device_id` holding `bytes` (missing bytes read as NUL). -/
def deviceIdBuffer (bytes : List Char) : List Char :=
  (bytes ++ List.replicate 1024 NUL).take 1024

/-- Lines 625-634: `memmove(device_id, device_id + 2, (size_t)length)` and
`device_id[length] = '\0'`.  The result is `none` when `length` is negative: the copy size
`(size_t)length` and the store index then lie outside the array. -/
def stripDeviceIdLength (device_id : List Char) : Option (List Char) :=
  let length := deviceIdLength (device_id.getD 0 NUL).toNat (device_id.getD 1 NUL).toNat
  if length < 0 then none
  else
    let n := length.toNat
    some ((((device_id.drop 2).take n) ++ device_id.drop n).set n NUL)

/-- Lines 649-652: the pointer `make`. -/
def findMake (device_id : List Char) : Option Nat :=
  match strstr device_id 0 "MANUFACTURER:".toList with
  | some p => some (p + 13)
  | none => (strstr device_id 0 "MFG:".toList).map (fun p => p + 4)

/-- Lines 654-657: the pointer `model`. -/
def findModel (device_id : List Char) : Option Nat :=
  match strstr device_id 0 "MODEL:".toList with
  | some p => some (p + 6)
  | none => (strstr device_id 0 "MDL:".toList).map (fun p => p + 4)

/-- Lines 659-664: the pointer `serial`. -/
def findSerial (device_id : List Char) : Option Nat :=
  match strstr device_id 0 "SERIALNUMBER:".toList with
  | some p => some (p + 12)
  | none =>
    match strstr device_id 0 "SERN:".toList with
    | some p => some (p + 5)
    | none => (strstr device_id 0 "SN:".toList).map (fun p => p + 3)

/-- The make, model and serial strings handed to `httpAssembleURIf`. -/
structure ParsedId where
  make : List Char
  model : List Char
  serial : Option (List Char)
  deriving DecidableEq, Repr

/-- Lines 649-695 of `pappl_find_usb`.  `serialLength` and `temp` are the result of
`libusb_get_string_descriptor_ascii` and the bytes it stored.  The three pointers are taken
first; the terminators are then written in the order serial, make, model; the strings are
read from the buffer as it stands afterwards. -/
def parseDeviceId (device_id : List Char) (serialLength : Int) (temp : List Char) :
    ParsedId :=
  let make := findMake device_id
  let model := findModel device_id
  let serial := findSerial device_id
  let buf1 :=
    match serial with
    | some p => terminateAtSemicolon device_id p
    | none => device_id
  let fallback : Option (List Char) :=
    if serialLength > 0 then some (cstr (temp.take serialLength.toNat) 0) else none
  let buf2 :=
    match make with
    | some p => terminateAtSemicolon buf1 p
    | none => buf1
  let buf3 :=
    match model with
    | some p => terminateAtSemicolon buf2 p
    | none => buf2
  { make := match make with
      | some p => cstr buf3 p
      | none => "Unknown".toList
    model := match model with
      | some p => cstr buf3 p
      | none => "Unknown".toList
    serial := match serial with
      | some p => some (cstr buf3 p)
      | none => fallback }

/-! ## device.c : USB descriptors and the scan of `pappl_find_usb` -/

/-- Constant `LIBUSB_CLASS_PRINTER`. -/
def LIBUSB_CLASS_PRINTER : Nat := 7

/-- Constant `LIBUSB_TRANSFER_TYPE_MASK`. -/
def LIBUSB_TRANSFER_TYPE_MASK : Nat := 3

/-- Constant `LIBUSB_TRANSFER_TYPE_BULK`. -/
def LIBUSB_TRANSFER_TYPE_BULK : Nat := 2

/-- Constant `LIBUSB_ENDPOINT_DIR_MASK`. -/
def LIBUSB_ENDPOINT_DIR_MASK : Nat := 0x80

/-- Structure `libusb_endpoint_descriptor`. -/
structure libusb_endpoint_descriptor where
  bmAttributes : Nat
  bEndpointAddress : Nat
  deriving DecidableEq, Repr

/-- Structure `libusb_interface_descriptor` (one alternate setting); `bNumEndpoints` is the
length of `endpoint`. -/
structure libusb_interface_descriptor where
  bInterfaceClass : Nat
  bInterfaceSubClass : Nat
  bInterfaceProtocol : Nat
  bAlternateSetting : Nat
  bInterfaceNumber : Nat
  endpoint : List libusb_endpoint_descriptor
  deriving DecidableEq, Repr

/-- Structure `libusb_interface`; `altsetting` may be `NULL` and `num_altsetting` is its
length. -/
structure libusb_interface_array where
  altsetting : Option (List libusb_interface_descriptor)
  deriving DecidableEq, Repr

/-- Structure `libusb_config_descriptor`; `bNumInterfaces` is the length of `interface`. -/
structure libusb_config_descriptor where
  bConfigurationValue : Nat
  interface : List libusb_interface_array
  deriving DecidableEq, Repr

/-- Structure `libusb_device_descriptor`. -/
structure libusb_device_descriptor where
  idVendor : Nat
  idProduct : Nat
  iSerialNumber : Nat
  bNumConfigurations : Nat
  deriving DecidableEq, Repr

/-- The endpoint loop (lines 526-538): `(read_endp, write_endp)` as `uint8_t`, `0xff` when
none was seen; `endp` is the index of the first descriptor of the list. -/
def scanEndpoints : Nat → List libusb_endpoint_descriptor → Nat × Nat → Nat × Nat
  | _, [], acc => acc
  | endp, e :: rest, (read_endp, write_endp) =>
    if e.bmAttributes &&& LIBUSB_TRANSFER_TYPE_MASK = LIBUSB_TRANSFER_TYPE_BULK then
      if e.bEndpointAddress &&& LIBUSB_ENDPOINT_DIR_MASK ≠ 0 then
        scanEndpoints (endp + 1) rest (endp, write_endp)
      else
        scanEndpoints (endp + 1) rest (read_endp, endp)
    else
      scanEndpoints (endp + 1) rest (read_endp, write_endp)

/-- One pass of the alternate-setting loop (lines 513-550). -/
def scanAltsetting (device : pappl_device_t) (altptr : libusb_interface_descriptor) :
    pappl_device_t :=
  if altptr.bInterfaceClass ≠ LIBUSB_CLASS_PRINTER ∨ altptr.bInterfaceSubClass ≠ 1 then device
  else if altptr.bInterfaceProtocol ≠ 1 ∧ altptr.bInterfaceProtocol ≠ 2 then device
  else if (altptr.bInterfaceProtocol : Int) < device.protocol then device
  else
    let (read_endp, write_endp) := scanEndpoints 0 altptr.endpoint (0xff, 0xff)
    if write_endp ≠ 0xff then
      let device :=
        { device with
          protocol := (altptr.bInterfaceProtocol : Int)
          altset := (altptr.bAlternateSetting : Int)
          ifacenum := (altptr.bInterfaceNumber : Int)
          write_endp := (write_endp : Int) }
      if device.protocol > 1 then { device with read_endp := (read_endp : Int) } else device
    else device

/-- The alternate-setting loop over one interface. -/
def scanAltsettings (device : pappl_device_t) (alts : List libusb_interface_descriptor) :
    pappl_device_t :=
  alts.foldl scanAltsetting device

/-- The expression
`confptr->interface[iface].altsetting[altset].endpoint[endp].bEndpointAddress`
(lines 709 and 712); `none` when an index lies outside its array. -/
def endpointAddress (confptr : libusb_config_descriptor) (iface altset endp : Int) :
    Option Nat :=
  if iface < 0 ∨ altset < 0 ∨ endp < 0 then none
  else do
    let ifaceptr ← confptr.interface.get? iface.toNat
    let alts ← ifaceptr.altsetting
    let altptr ← alts.get? altset.toNat
    let e ← altptr.endpoint.get? endp.toNat
    pure e.bEndpointAddress

/-- What libusb answers during one attempt to open a device (lines 557-716). -/
structure UsbAttempt where
  /-- Return value of `libusb_open`. -/
  openStatus : Int
  /-- Return value of the GET_CONFIGURATION control transfer. -/
  getConfigStatus : Int
  /-- The byte `current` stored by that transfer. -/
  current : Nat
  /-- Return value of `libusb_set_configuration`. -/
  setConfigStatus : Int
  /-- Return value of `libusb_kernel_driver_active`. -/
  kernelDriverActive : Int
  /-- Return value of `libusb_detach_kernel_driver`. -/
  detachStatus : Int
  /-- Return value of `libusb_claim_interface`. -/
  claimStatus : Int
  /-- Return value of `libusb_set_interface_alt_setting`. -/
  setAltStatus : Int
  /-- Return value of the device-ID control transfer. -/
  deviceIdStatus : Int
  /-- Contents of `device_id` after that transfer. -/
  device_id : List Char
  /-- Return value of `libusb_get_string_descriptor_ascii`. -/
  serialLength : Int
  /-- Bytes stored in `temp` by that call. -/
  temp : List Char

/-- One entry of the libusb device list. -/
structure UsbDevice where
  /-- Result of `libusb_get_device_descriptor` (`none`: negative return). -/
  descriptor : Option libusb_device_descriptor
  /-- Result of `libusb_get_config_descriptor` for a configuration index. -/
  config : Nat → Option libusb_config_descriptor
  /-- The answers of libusb for the attempt made at configuration `conf`, interface `iface`. -/
  attempt : Nat → Nat → UsbAttempt

/-- The USB side of the environment. -/
structure UsbEnv where
  /-- Whether `__linux` is defined. -/
  linux : Bool
  /-- Return value of `libusb_init`. -/
  initStatus : Int
  /-- The devices returned by `libusb_get_device_list` (none on a negative return). -/
  udevs : List UsbDevice
  /-- Function `libusb_strerror`. -/
  libusb_strerror : Int → List Char
  /-- The text `httpAssembleURIf` stores in `device_uri[1024]` for scheme `usb`, given the
  make, the model and the optional serial. -/
  httpAssembleURIf : List Char → List Char → Option (List Char) → List Char

/-- Conversion `%04x`. -/
def fmt04x (v : Nat) : List Char :=
  zeroPad 4 (Nat.toDigits 16 v)

/-- State of the scan of `pappl_find_usb`. -/
structure ScanState where
  device : pappl_device_t
  trace : List DevEvent
  /-- Whether `goto match_found` was taken. -/
  found : Bool

/-- Closes the libusb handle: `libusb_close(device->handle); device->handle = NULL;`. -/
def closeHandle (i : Nat) (st : ScanState) : ScanState :=
  { st with device := { st.device with handle := false }
            trace := st.trace ++ [DevEvent.usbClose i] }

/-- Reports a message of the scan through `pappl_error`. -/
def ScanState.report (st : ScanState) (err_cb : Bool) (message : List Char) : ScanState :=
  { st with trace := pappl_error err_cb st.trace message }

/-- Lines 557-720: the device was opened; negotiate, read the device ID, build the URI and
ask the callback.  The result is `none` when an array is accessed outside its bounds. -/
def openedDevice (env : UsbEnv) (cb : List Char → Bool) (err_cb : Bool) (i : Nat)
    (devdesc : libusb_device_descriptor) (confptr : libusb_config_descriptor)
    (num_altsetting : Nat) (a : UsbAttempt) (st : ScanState) : Option ScanState :=
  let st := { st with device := { st.device with handle := true } }
  let current : Nat := if a.getConfigStatus < 0 then 0 else a.current % 256
  let st :=
    if confptr.bConfigurationValue % 256 ≠ current then
      if a.setConfigStatus < 0 then closeHandle i st else st
    else st
  let st :=
    if env.linux ∧ st.device.handle then
      if a.kernelDriverActive = 1 then
        if a.detachStatus < 0 then
          closeHandle i (st.report err_cb
            ("Unable to detach usblp kernel driver for USB printer ".toList
              ++ fmt04x devdesc.idVendor ++ ":".toList ++ fmt04x devdesc.idProduct
              ++ ": ".toList ++ env.libusb_strerror a.detachStatus))
        else st
      else st
    else st
  let st :=
    if st.device.handle then
      if a.claimStatus < 0 then
        closeHandle i (st.report err_cb
          ("Unable to claim USB interface: ".toList ++ env.libusb_strerror a.claimStatus))
      else st
    else st
  let st :=
    if st.device.handle ∧ num_altsetting > 1 then
      if a.setAltStatus < 0 then
        closeHandle i (st.report err_cb
          ("Unable to set alternate USB interface: ".toList
            ++ env.libusb_strerror a.setAltStatus))
      else st
    else st
  if st.device.handle = false then some st
  else if a.deviceIdStatus < 0 then
    some (closeHandle i (st.report err_cb
      ("Unable to get IEEE-1284 device ID: ".toList ++ env.libusb_strerror a.deviceIdStatus)))
  else
    match stripDeviceIdLength (deviceIdBuffer a.device_id) with
    | none => none
    | some device_id =>
      let id := parseDeviceId device_id a.serialLength a.temp
      let device_uri := env.httpAssembleURIf id.make id.model id.serial
      let st := { st with trace := st.trace ++ [DevEvent.callback device_uri] }
      if cb device_uri then
        let d := st.device
        let read_endp : Option Int :=
          if d.read_endp ≠ -1 then
            (endpointAddress confptr d.iface d.altset d.read_endp).map (fun x => (x : Int))
          else some d.read_endp
        let write_endp : Option Int :=
          if d.write_endp ≠ -1 then
            (endpointAddress confptr d.iface d.altset d.write_endp).map (fun x => (x : Int))
          else some d.write_endp
        match read_endp, write_endp with
        | some r, some w =>
          some { st with device := { d with read_endp := r, write_endp := w }, found := true }
        | _, _ => none
      else some (closeHandle i st)

/-- The body of the interface loop (lines 503-721) for interface `iface` of configuration
`conf` of device `i`. -/
def scanInterface (env : UsbEnv) (cb : List Char → Bool) (err_cb : Bool) (i : Nat)
    (udevice : UsbDevice) (devdesc : libusb_device_descriptor) (conf : Nat)
    (confptr : libusb_config_descriptor) (iface : Nat) (ifaceptr : libusb_interface_array)
    (st : ScanState) : Option ScanState :=
  match ifaceptr.altsetting with
  | none => some st
  | some alts =>
    let device := scanAltsettings st.device alts
    if device.protocol > 0 then
      let device := { device with conf := (conf : Int), iface := (iface : Int) }
      let a := udevice.attempt conf iface
      let st := { st with device := device, trace := st.trace ++ [DevEvent.usbOpen i] }
      if a.openStatus = 0 then
        openedDevice env cb err_cb i devdesc confptr alts.length a st
      else some st
    else some { st with device := device }

/-- The interface loop of one configuration, from interface index `iface` on; it stops when
a match was found. -/
def scanInterfaces (env : UsbEnv) (cb : List Char → Bool) (err_cb : Bool) (i : Nat)
    (udevice : UsbDevice) (devdesc : libusb_device_descriptor) (conf : Nat)
    (confptr : libusb_config_descriptor) :
    Nat → List libusb_interface_array → ScanState → Option ScanState
  | _, [], st => some st
  | iface, ifaceptr :: rest, st =>
    match scanInterface env cb err_cb i udevice devdesc conf confptr iface ifaceptr st with
    | none => none
    | some st1 =>
      if st1.found then some st1
      else scanInterfaces env cb err_cb i udevice devdesc conf confptr (iface + 1) rest st1

/-- The configuration loop of one device over the configuration indices `confs`. -/
def scanConfigs (env : UsbEnv) (cb : List Char → Bool) (err_cb : Bool) (i : Nat)
    (udevice : UsbDevice) (devdesc : libusb_device_descriptor) :
    List Nat → ScanState → Option ScanState
  | [], st => some st
  | conf :: rest, st =>
    match udevice.config conf with
    | none => scanConfigs env cb err_cb i udevice devdesc rest st
    | some confptr =>
      match scanInterfaces env cb err_cb i udevice devdesc conf confptr 0 confptr.interface st
      with
      | none => none
      | some st1 =>
        if st1.found then some st1
        else scanConfigs env cb err_cb i udevice devdesc rest st1

/-- The body of the device loop (lines 418-726) for device `i`. -/
def scanDevice (env : UsbEnv) (cb : List Char → Bool) (err_cb : Bool) (i : Nat)
    (udevice : UsbDevice) (st : ScanState) : Option ScanState :=
  match udevice.descriptor with
  | none => some st
  | some devdesc =>
    if devdesc.bNumConfigurations = 0 ∨ devdesc.idVendor = 0 ∨ devdesc.idProduct = 0 then
      some st
    else if devdesc.idVendor = 0x05ac then some st
    else
      let device : pappl_device_t :=
        { st.device with
          device := some i
          handle := false
          conf := -1
          origconf := -1
          iface := -1
          ifacenum := -1
          altset := -1
          write_endp := -1
          read_endp := -1
          protocol := 0 }
      scanConfigs env cb err_cb i udevice devdesc (List.range devdesc.bNumConfigurations)
        { st with device := device }

/-- The device loop, from device index `i` on; it stops when a match was found. -/
def scanDevices (env : UsbEnv) (cb : List Char → Bool) (err_cb : Bool) :
    Nat → List UsbDevice → ScanState → Option ScanState
  | _, [], st => some st
  | i, udevice :: rest, st =>
    match scanDevice env cb err_cb i udevice st with
    | none => none
    | some st1 =>
      if st1.found then some st1 else scanDevices env cb err_cb (i + 1) rest st1

/-- Function `pappl_find_usb`: the return value (`device->handle != NULL`), the device
record and the effects.  The result is `none` when an array is accessed outside its
bounds. -/
def pappl_find_usb (env : UsbEnv) (cb : List Char → Bool) (device : pappl_device_t)
    (err_cb : Bool) (trace : List DevEvent) : Option (Bool × pappl_device_t × List DevEvent) :=
  let device := { device with device := none, handle := false }
  let trace := trace ++ [DevEvent.usbInit]
  if env.initStatus ≠ 0 then
    some (false, device, pappl_error err_cb trace
      ("Unable to initialize USB access: ".toList ++ env.libusb_strerror env.initStatus))
  else
    match scanDevices env cb err_cb 0 env.udevs
      { device := device, trace := trace, found := false } with
    | none => none
    | some st => some (st.device.handle, st.device, st.trace)

/-- Function `pappl_open_cb`: whether the candidate URI equals the URI looked for. -/
def pappl_open_cb (data : List Char) (device_uri : List Char) : Bool :=
  device_uri = data

/-! ## device.c : `papplDeviceOpen` -/

/-- Constant `HTTP_URI_STATUS_OK`. -/
def HTTP_URI_STATUS_OK : Int := 0

/-- What `httpSeparateURI` returns and stores. -/
structure UriParts where
  status : Int
  scheme : List Char
  host : List Char
  port : Int
  resource : List Char

/-- What `papplDeviceOpen` obtains from CUPS, the C library and libusb. -/
structure OpenEnv where
  /-- Function `httpSeparateURI`. -/
  httpSeparateURI : List Char → UriParts
  /-- Function `httpURIStatusString`. -/
  httpURIStatusString : Int → List Char
  /-- Whether `calloc` returns memory. -/
  callocOk : Bool
  /-- Result of `open(resource, O_RDWR | O_EXCL)`. -/
  openFile : List Char → Int
  /-- Text of `strerror(errno)`. -/
  strerror : List Char
  /-- Whether `httpAddrGetList(host, AF_UNSPEC, port)` returns a list. -/
  addrGetList : List Char → List Char → Bool
  /-- Value of `device->fd` after `httpAddrConnect2`. -/
  connectFd : Int
  /-- Text of `cupsLastErrorString()`. -/
  cupsLastErrorString : List Char
  /-- Whether `HAVE_LIBUSB` is defined. -/
  have_libusb : Bool
  /-- The USB environment. -/
  usb : UsbEnv

/-- Function `papplDeviceOpen`: the device (`none` for `NULL`) and the effects.  `err_cb`
tells whether the error callback is non-NULL.  The outer result is `none` when the USB scan
accesses an array outside its bounds. -/
def papplDeviceOpen (env : OpenEnv) (device_uri : Option (List Char)) (err_cb : Bool) :
    Option (Option pappl_device_t × List DevEvent) :=
  match device_uri with
  | none => some (none, pappl_error err_cb [] "Bad NULL device URI.".toList)
  | some uri =>
    let parts := env.httpSeparateURI uri
    if parts.status < HTTP_URI_STATUS_OK then
      some (none, pappl_error err_cb []
        ("Bad device URI '".toList ++ uri ++ "': ".toList
          ++ env.httpURIStatusString parts.status))
    else
      let resource := parts.resource.takeWhile (fun c => c != '?')
      if env.callocOk = false then some (none, [])
      else
        let device := pappl_device_t.zeroed
        if parts.scheme = "file".toList then
          let fd := env.openFile resource
          let trace := [DevEvent.fileOpen resource]
          if fd < 0 then
            some (none, pappl_error err_cb trace
              ("Unable to open '".toList ++ resource ++ "': ".toList ++ env.strerror))
          else some (some { device with fd := fd }, trace)
        else if parts.scheme = "socket".toList then
          let port_str := snprintf 32 (fmt_d parts.port)
          let trace := [DevEvent.addrGetList parts.host port_str]
          if env.addrGetList parts.host port_str = false then
            some (none, pappl_error err_cb trace
              ("Unable to lookup '".toList ++ parts.host ++ ":".toList ++ fmt_d parts.port
                ++ "': ".toList ++ env.cupsLastErrorString))
          else
            let trace := trace ++ [DevEvent.addrConnect]
            if env.connectFd < 0 then
              some (none, pappl_error err_cb trace
                ("Unable to connect to '".toList ++ parts.host ++ ":".toList
                  ++ fmt_d parts.port ++ "': ".toList ++ env.cupsLastErrorString))
            else some (some { device with fd := env.connectFd }, trace)
        else if env.have_libusb ∧ parts.scheme = "usb".toList then
          match pappl_find_usb env.usb (pappl_open_cb uri) { device with fd := -1 } err_cb []
          with
          | none => none
          | some (found, device, trace) =>
            if found = false then some (none, trace) else some (some device, trace)
        else
          some (none, pappl_error err_cb []
            ("Unsupported device URI scheme '".toList ++ parts.scheme ++ "'.".toList))

/-! ## Vocabulary of the properties -/

/-- Sum of the byte counts of the successful outcomes in a list of `write` outcomes. -/
def okSum : List IoResult → Nat
  | [] => 0
  | IoResult.ok c :: rest => c + okSum rest
  | IoResult.error _ :: rest => okSum rest

/-- Whether every successful `write` outcome met while the loop of `papplDeviceWrite` runs
transfers at most the bytes remaining (`remaining` at the start of the list); outcomes after
the last byte or after a non-retryable failure are not constrained. -/
def withinRemaining : Nat → List IoResult → Bool
  | _, [] => true
  | remaining, o :: rest =>
    if remaining = 0 then true
    else
      match o with
      | IoResult.ok c => decide (c ≤ remaining) && withinRemaining (remaining - c) rest
      | IoResult.error e =>
        if e = EINTR ∨ e = EAGAIN then withinRemaining remaining rest else true

/-- The big-endian reading `b0 * 256 + b1` of the two leading bytes of the device ID. -/
def bigEndianLength (b0 b1 : Nat) : Nat := (b0 % 256) * 256 + b1 % 256

/-- The little-endian reading `b1 * 256 + b0` of the two leading bytes of the device ID. -/
def littleEndianLength (b0 b1 : Nat) : Nat := (b1 % 256) * 256 + b0 % 256

/-- The Device ID string left in `device_id` by lines 625-634, when they are defined. -/
def deviceIdString (device_id : List Char) : Option (List Char) :=
  (stripDeviceIdLength device_id).map (fun buf => cstr buf 0)

/-! ## Concrete environments -/

/-- A parse of the URI `usb://Acme/X1?serial=1`. -/
def usbUriParts : UriParts where
  status := 0
  scheme := "usb".toList
  host := "Acme".toList
  port := 0
  resource := "/X1?serial=1".toList

/-- A bi-directional printer interface with one bulk-OUT and one bulk-IN endpoint. -/
def printerConfig : libusb_config_descriptor where
  bConfigurationValue := 1
  interface :=
    [{ altsetting := some
        [{ bInterfaceClass := 7, bInterfaceSubClass := 1, bInterfaceProtocol := 2
           bAlternateSetting := 0, bInterfaceNumber := 0
           endpoint := [{ bmAttributes := 2, bEndpointAddress := 0x01 },
                        { bmAttributes := 2, bEndpointAddress := 0x81 }] }] }]

/-- An attached printer whose device ID is `MFG:Acme;MDL:X1;SN:2;` and for which every libusb
call succeeds. -/
def attachedPrinter : UsbDevice where
  descriptor := some { idVendor := 0x1234, idProduct := 0x0001, iSerialNumber := 3
                       bNumConfigurations := 1 }
  config := fun _ => some printerConfig
  attempt := fun _ _ =>
    { openStatus := 0, getConfigStatus := 1, current := 1, setConfigStatus := 0
      kernelDriverActive := 0, detachStatus := 0, claimStatus := 0, setAltStatus := 0
      deviceIdStatus := 23
      device_id := Char.ofNat 0 :: Char.ofNat 23 :: "MFG:Acme;MDL:X1;SN:2;".toList
      serialLength := 0, temp := [] }

/-- An environment in which the URI parses as in `usbUriParts`, libusb initialises, and the
device list is `udevs`. -/
def usbOpenEnv (udevs : List UsbDevice) : OpenEnv where
  httpSeparateURI := fun _ => usbUriParts
  httpURIStatusString := fun _ => []
  callocOk := true
  openFile := fun _ => -1
  strerror := []
  addrGetList := fun _ _ => false
  connectFd := -1
  cupsLastErrorString := []
  have_libusb := true
  usb :=
    { linux := true
      initStatus := 0
      udevs := udevs
      libusb_strerror := fun _ => []
      httpAssembleURIf := fun make model serial =>
        "usb://".toList ++ make ++ "/".toList ++ model ++
          (match serial with
           | some s => "?serial=".toList ++ s
           | none => []) }

/-- An environment whose URI parser rejects every URI with `HTTP_URI_STATUS_BAD_URI`. -/
def rejectingEnv : OpenEnv :=
  { usbOpenEnv [] with httpSeparateURI := fun _ => { usbUriParts with status := -1 } }

/-! ## Vocabulary of the USB scan -/

/-- Whether an endpoint has transfer type bulk and direction OUT. -/
def isBulkOut (e : libusb_endpoint_descriptor) : Bool :=
  e.bmAttributes &&& LIBUSB_TRANSFER_TYPE_MASK = LIBUSB_TRANSFER_TYPE_BULK &&
    e.bEndpointAddress &&& LIBUSB_ENDPOINT_DIR_MASK = 0

/-- Whether an endpoint has transfer type bulk and direction IN. -/
def isBulkIn (e : libusb_endpoint_descriptor) : Bool :=
  e.bmAttributes &&& LIBUSB_TRANSFER_TYPE_MASK = LIBUSB_TRANSFER_TYPE_BULK &&
    e.bEndpointAddress &&& LIBUSB_ENDPOINT_DIR_MASK != 0

/-- Whether an alternate setting is a printer-class candidate: class Printer, subclass 1,
protocol 1 or 2. -/
def isPrinterCandidate (altptr : libusb_interface_descriptor) : Bool :=
  altptr.bInterfaceClass = LIBUSB_CLASS_PRINTER && altptr.bInterfaceSubClass = 1 &&
    (altptr.bInterfaceProtocol = 1 || altptr.bInterfaceProtocol = 2)

/-- The index, counted from `k` for the head of the list, of the last element that satisfies
`p`, or `d` when there is none. -/
def lastIndexFrom {α : Type} (p : α → Bool) : Nat → List α → Nat → Nat
  | _, [], d => d
  | k, e :: rest, d => lastIndexFrom p (k + 1) rest (if p e then k else d)

/-- The device record as `pappl_find_usb` resets it for a device of the list (lines
468-477). -/
def resetDevice (i : Nat) : pappl_device_t :=
  { pappl_device_t.zeroed with
    fd := -1
    device := some i
    handle := false
    conf := -1
    origconf := -1
    iface := -1
    ifacenum := -1
    altset := -1
    write_endp := -1
    read_endp := -1
    protocol := 0 }

/-- A uni-directional printer alternate setting (number 0) with one bulk-OUT endpoint. -/
def uniAltWithOut : libusb_interface_descriptor where
  bInterfaceClass := 7
  bInterfaceSubClass := 1
  bInterfaceProtocol := 1
  bAlternateSetting := 0
  bInterfaceNumber := 0
  endpoint := [{ bmAttributes := 2, bEndpointAddress := 0x01 }]

/-- A bi-directional printer alternate setting with a bulk-OUT endpoint and no bulk-IN
endpoint. -/
def bidiAltOutOnly : libusb_interface_descriptor where
  bInterfaceClass := 7
  bInterfaceSubClass := 1
  bInterfaceProtocol := 2
  bAlternateSetting := 0
  bInterfaceNumber := 0
  endpoint := [{ bmAttributes := 2, bEndpointAddress := 0x01 }]

/-- An attached printer like `attachedPrinter` whose only alternate setting is
`bidiAltOutOnly`. -/
def outOnlyPrinter : UsbDevice :=
  { attachedPrinter with
    config := fun _ =>
      some { bConfigurationValue := 1, interface := [{ altsetting := some [bidiAltOutOnly] }] } }

/-! ## Vocabulary of the main loop -/

/-- The sum over all printers of the active-job count. -/
def activeJobsSum (system : pappl_system_t) : Int :=
  (system.printers.map (fun p => (p.active_jobs : Int))).sum

/-- The lock and unlock events of `n` printers with indices from `k` on, each printer's lock
being released before the next is taken. -/
def printerLockEvents : Nat → Nat → List SysEvent
  | _, 0 => []
  | k, n + 1 => SysEvent.printerRdlock k :: SysEvent.printerUnlock k :: printerLockEvents (k + 1) n

/-- Whether a pass through the loop body left the loop. -/
def LoopStep.isExit : LoopStep → Bool
  | LoopStep.next _ => false
  | LoopStep.exit _ => true

/-- The system after a pass through the loop body. -/
def LoopStep.system : LoopStep → pappl_system_t
  | LoopStep.next s => s
  | LoopStep.exit s => s

/-- Whether an iteration sees neither a signal nor a fatal `poll` error. -/
def LoopInput.quiet (inp : LoopInput) : Prop :=
  inp.signal = false ∧ ¬ (inp.pollCount < 0 ∧ inp.pollErrno ≠ EINTR ∧ inp.pollErrno ≠ EAGAIN)

/-- A system with a shutdown requested at time 100 and one printer with one active job. -/
def busySystem : pappl_system_t :=
  { pappl_system_t.zeroed with
    is_running := true
    num_listeners := 1
    shutdown_time := 100
    printers := [{ dns_sd_collision := false, active_jobs := 1 }] }

/-- A system with a shutdown requested at time 100 and two printers, neither with an
active job. -/
def idleSystem : pappl_system_t :=
  { pappl_system_t.zeroed with
    is_running := true
    num_listeners := 1
    shutdown_time := 100
    printers := [{ dns_sd_collision := false, active_jobs := 0 },
      { dns_sd_collision := false, active_jobs := 0 }] }

/-- An iteration without events in which both clock readings are `t`. -/
def idleInput (t : Int) : LoopInput where
  concurrent := fun s => s
  signal := false
  pollCount := 0
  pollErrno := 0
  listeners := []
  strerror := []
  timeShutdown := t
  timeClean := t

/-- The system with further events appended to its trace. -/
def pappl_system_t.appendTrace (s : pappl_system_t) (es : List SysEvent) : pappl_system_t :=
  { s with trace := s.trace ++ es }

/-- The registration events of the colliding printers of a list, in list order, the head of
the list having index `k`. -/
def printerRegistrations : Nat → List pappl_printer_t → List SysEvent
  | _, [] => []
  | k, p :: rest =>
    (if p.dns_sd_collision then [SysEvent.registerPrinterDNSSD k] else [])
      ++ printerRegistrations (k + 1) rest

/-- How the system lock `system->rwlock` is held by the main loop. -/
inductive LockMode where
  | unlocked | shared | exclusive
  deriving DecidableEq, Repr

/-- The lock mode after one event. -/
def LockMode.step (m : LockMode) : SysEvent → LockMode
  | SysEvent.rdlock => LockMode.shared
  | SysEvent.wrlock => LockMode.exclusive
  | SysEvent.unlock => LockMode.unlocked
  | _ => m

/-- The lock mode after a list of events. -/
def lockAfter : LockMode → List SysEvent → LockMode
  | m, [] => m
  | m, e :: rest => lockAfter (m.step e) rest

/-- Whether an event is a DNS-SD re-registration of the system or of a printer. -/
def isRegistration : SysEvent → Bool
  | SysEvent.registerSystemDNSSD => true
  | SysEvent.registerPrinterDNSSD _ => true
  | _ => false

/-- Whether every DNS-SD re-registration in a list of events happens while the system lock
is held in mode `want`, the lock mode before the list being `m`. -/
def registrationsUnder (want : LockMode) : LockMode → List SysEvent → Bool
  | _, [] => true
  | m, e :: rest =>
    (if isRegistration e then decide (m = want) else true)
      && registrationsUnder want (m.step e) rest

/-- A system on which a DNS-SD collision of the system name and of its one printer has been
signalled. -/
def collidingSystem : pappl_system_t :=
  { pappl_system_t.zeroed with
    is_running := true
    num_listeners := 1
    dns_sd_any_collision := true
    dns_sd_collision := true
    printers := [{ dns_sd_collision := true, active_jobs := 0 }] }

/-- The number of successful outcomes in a list of `write` outcomes. -/
def okCount : List IoResult → Nat
  | [] => 0
  | IoResult.ok _ :: rest => okCount rest + 1
  | IoResult.error _ :: rest => okCount rest

/-- The name of the log file when none is given: `<tmpdir>/pappl<uid>.log`, where the
directory is `TMPDIR` or, without it, `/private/tmp` on Apple systems and `/tmp` elsewhere,
the user id is printed with `%d`, and the text is cut to the 256-byte buffer. -/
def defaultLogfile (env : CreateEnv) : List Char :=
  snprintf 256
    ((match env.TMPDIR with
      | some t => t
      | none => if env.apple then "/private/tmp".toList else "/tmp".toList)
      ++ "/pappl".toList ++ fmt_d (toInt32 env.uid) ++ ".log".toList)

/-- An environment of `papplSystemCreate` for user 1000 without `TMPDIR`, in which every
`mkdir` succeeds and every `open` of a log file returns `fd`. -/
def createEnv (apple : Bool) (fd : Int) : CreateEnv where
  callocOk := true
  time0 := 1000
  time1 := 1000
  uid := 1000
  autoHostname := "host.local".toList
  TMPDIR := none
  apple := apple
  mkdir := fun _ => (0, 0)
  openLog := fun _ => fd
  cupsHashData := fun _ _ => 0
  rand := { seq := fun _ => 0, pos := 0 }

/-! ## Vocabulary of the Device ID fields -/

/-- The text up to, not including, the next `;` (or the end of the string). -/
def upToSemicolon (s : List Char) : List Char :=
  s.takeWhile (fun c => c != ';')

/-- Whether `key` occurs in `s` as a substring. -/
def occursIn (key s : List Char) : Prop :=
  ∃ pre post, s = pre ++ key ++ post

/-- The first occurrence of `key` in `s` has `pre` before it and `post` after it. -/
def firstOccurrence (key s pre post : List Char) : Prop :=
  s = pre ++ key ++ post ∧ ∀ pre2 post2, s = pre2 ++ key ++ post2 → pre.length ≤ pre2.length

/-- A Device ID buffer whose serial field comes first and whose make uses the short key;
the bytes after the terminator are left over from an earlier read. -/
def serialFirstDeviceId : List Char :=
  "SN:ABC123;MFG:Acme;MODEL:LaserStar 9;CMD:PCL;".toList ++ NUL :: "MANUFACTURER:Old;".toList

/-! ## Formatting lemmas -/

theorem snprintf_of_length_lt (size : Nat) (s : List Char) (h : s.length < size) :
    snprintf size s = s := by
  unfold snprintf
  exact List.take_of_length_le (by omega)

theorem fmt02x_byte (v : Nat) (h : v < 256) :
    fmt02x v = [Nat.digitChar (v / 16), Nat.digitChar (v % 16)] := by
  interval_cases v <;> rfl

theorem version_byte (b : Nat) (h : b < 256) : ((b &&& 15) ||| 0x30) / 16 = 3 ∧
    ((b &&& 15) ||| 0x30) < 256 := by
  interval_cases b <;> decide

theorem variant_byte (b : Nat) (h : b < 256) :
    (((b &&& 0x3f) ||| 0x40) / 16 = 4 ∨ ((b &&& 0x3f) ||| 0x40) / 16 = 5 ∨
      ((b &&& 0x3f) ||| 0x40) / 16 = 6 ∨ ((b &&& 0x3f) ||| 0x40) / 16 = 7) ∧
    ((b &&& 0x3f) ||| 0x40) < 256 := by
  interval_cases b <;> decide

theorem str_urn : "urn:uuid:".toList = ['u', 'r', 'n', ':', 'u', 'u', 'i', 'd', ':'] := rfl

theorem str_dash : "-".toList = ['-'] := rfl

/-- The 45 characters of the UUID text, digit by digit. -/
theorem uuidText_eq (sha256 : Nat → Nat) :
    uuidText sha256 =
      ['u', 'r', 'n', ':', 'u', 'u', 'i', 'd', ':',
        Nat.digitChar (sha256 0 % 256 / 16), Nat.digitChar (sha256 0 % 256 % 16),
        Nat.digitChar (sha256 1 % 256 / 16), Nat.digitChar (sha256 1 % 256 % 16),
        Nat.digitChar (sha256 3 % 256 / 16), Nat.digitChar (sha256 3 % 256 % 16),
        Nat.digitChar (sha256 4 % 256 / 16), Nat.digitChar (sha256 4 % 256 % 16), '-',
        Nat.digitChar (sha256 5 % 256 / 16), Nat.digitChar (sha256 5 % 256 % 16),
        Nat.digitChar (sha256 6 % 256 / 16), Nat.digitChar (sha256 6 % 256 % 16), '-',
        Nat.digitChar (((sha256 10 % 256 &&& 15) ||| 0x30) / 16),
        Nat.digitChar (((sha256 10 % 256 &&& 15) ||| 0x30) % 16),
        Nat.digitChar (sha256 11 % 256 / 16), Nat.digitChar (sha256 11 % 256 % 16), '-',
        Nat.digitChar (((sha256 15 % 256 &&& 0x3f) ||| 0x40) / 16),
        Nat.digitChar (((sha256 15 % 256 &&& 0x3f) ||| 0x40) % 16),
        Nat.digitChar (sha256 16 % 256 / 16), Nat.digitChar (sha256 16 % 256 % 16), '-',
        Nat.digitChar (sha256 20 % 256 / 16), Nat.digitChar (sha256 20 % 256 % 16),
        Nat.digitChar (sha256 21 % 256 / 16), Nat.digitChar (sha256 21 % 256 % 16),
        Nat.digitChar (sha256 25 % 256 / 16), Nat.digitChar (sha256 25 % 256 % 16),
        Nat.digitChar (sha256 26 % 256 / 16), Nat.digitChar (sha256 26 % 256 % 16),
        Nat.digitChar (sha256 30 % 256 / 16), Nat.digitChar (sha256 30 % 256 % 16),
        Nat.digitChar (sha256 31 % 256 / 16), Nat.digitChar (sha256 31 % 256 % 16)] := by
  have hb : ∀ i, sha256 i % 256 < 256 := fun i => Nat.mod_lt _ (by norm_num)
  have hv := (version_byte (sha256 10 % 256) (hb 10)).2
  have hn := (variant_byte (sha256 15 % 256) (hb 15)).2
  unfold uuidText
  simp only [fmt02x_byte _ (hb _), fmt02x_byte _ hv, fmt02x_byte _ hn, str_urn, str_dash,
    List.cons_append, List.nil_append]

theorem uuidText_length (sha256 : Nat → Nat) : (uuidText sha256).length = 45 := by
  rw [uuidText_eq]; rfl

/-- With a buffer of at least 46 bytes `_papplSystemMakeUUID` stores the whole UUID text. -/
theorem makeUUID_text (cupsHashData : List Char → Nat → Nat) (system : pappl_system_t)
    (printer_name : Option (List Char)) (job_id : Int) (bufsize : Nat) (rand : RandState)
    (h : 46 ≤ bufsize) :
    (_papplSystemMakeUUID cupsHashData system printer_name job_id bufsize rand).1 =
      uuidText (cupsHashData (_papplSystemMakeUUID_data system printer_name job_id rand).1) := by
  unfold _papplSystemMakeUUID
  simp only
  exact snprintf_of_length_lt _ _ (by rw [uuidText_length]; omega)

/-! ## `papplSystemCreate` and `papplSystemRun` -/

theorem papplSystemCreate_log_fields (env : CreateEnv) (tmpdir : List Char)
    (system : pappl_system_t) :
    (papplSystemCreate_log env tmpdir system).is_running = system.is_running ∧
      (papplSystemCreate_log env tmpdir system).num_listeners = system.num_listeners := by
  unfold papplSystemCreate_log
  simp only [pappl_system_t.emit]
  split_ifs <;> simp

/-- A system returned by `papplSystemCreate` is not running and has no listeners. -/
theorem papplSystemCreate_not_running (env : CreateEnv) (options : Nat)
    (uuid name hostname : Option (List Char)) (port : Int)
    (subtypes spooldir logfile : Option (List Char)) (loglevel : pappl_loglevel_t)
    (auth_service : Option (List Char)) (tls_only : Bool) (system : pappl_system_t)
    (h : (papplSystemCreate env options uuid name hostname port subtypes spooldir logfile
      loglevel auth_service tls_only).1 = some system) :
    system.is_running = false ∧ system.num_listeners = 0 := by
  unfold papplSystemCreate at h
  cases name with
  | none => simp at h
  | some nm =>
    simp only at h
    by_cases hc : env.callocOk = false
    · simp [hc] at h
    · simp only [hc, if_false] at h
      generalize hs0 : papplSystemCreate_init env options uuid nm hostname port subtypes
        spooldir logfile loglevel auth_service tls_only = s0 at h
      have e0 : s0.is_running = false ∧ s0.num_listeners = 0 := by
        subst hs0; exact ⟨rfl, rfl⟩
      have e1 : (papplSystemCreate_hostname env s0).is_running = false ∧
          (papplSystemCreate_hostname env s0).num_listeners = 0 := e0
      generalize papplSystemCreate_hostname env s0 = s1 at h e1
      have e2 : (papplSystemCreate_uuid env s1).1.is_running = false ∧
          (papplSystemCreate_uuid env s1).1.num_listeners = 0 := by
        unfold papplSystemCreate_uuid
        split <;> exact e1
      generalize papplSystemCreate_uuid env s1 = r at h e2
      cases hd : papplSystemCreate_directory env r.1 with
      | none => simp [hd] at h
      | some s3 =>
        simp only [hd, Option.some.injEq] at h
        have e3 : s3.is_running = false ∧ s3.num_listeners = 0 := by
          unfold papplSystemCreate_directory at hd
          simp only at hd
          split_ifs at hd
          simp only [Option.some.injEq] at hd
          subst hd
          exact e2
        have e4 : (papplSystemCreate_loglevel s3).is_running = false ∧
            (papplSystemCreate_loglevel s3).num_listeners = 0 := by
          unfold papplSystemCreate_loglevel
          split_ifs <;> exact e3
        have e5 := papplSystemCreate_log_fields env (papplSystemCreate_tmpdir env)
          (papplSystemCreate_loglevel s3)
        rw [e4.1, e4.2] at e5
        simp at h
        subst h
        unfold papplSystemCreate_auth
        split_ifs <;> exact e5

/-- Claim C1 (fails on the code): `papplSystemRun` should enter the main loop exactly when the
system is not yet running and has a listener.  The guard of the source is inverted: for every
system whose running flag is false, as `papplSystemCreate` leaves it, the call only logs the
fatal message "Tried to run main loop when already running." and returns, with the flag
still false and no iteration of the loop; for a system already running that has a listener
the call enters the loop (no observation yet: still inside the loop, flag set). -/
theorem papplSystemRun_guard_inverted (version : List Char) (system : pappl_system_t)
    (shutdown_system : Bool) (inputs : List LoopInput) :
    papplSystemRun version (some { system with is_running := false }) shutdown_system inputs
        = some { system := papplLog { system with is_running := false } pappl_loglevel_t.FATAL
                   "Tried to run main loop when already running.".toList
                 shutdown_system := shutdown_system, left := true }
      ∧ (papplSystemRun version
            (some { system with is_running := true, num_listeners := system.num_listeners + 1 })
            shutdown_system []).map (fun st => (st.left, st.system.is_running))
          = some (false, true) := by
  constructor
  · simp [papplSystemRun]
  · simp [papplSystemRun, mainLoop, papplLog, pappl_system_t.emit]

/-! ## `_papplSystemMakeUUID` -/

/-- Claim C2 (fails on the code): the variant nibble of the UUID text should be one of
8, 9, a, b.  The source ORs digest byte 15 with `0x40` instead of `0x80`: for every digest
and every buffer of at least 46 bytes the first hex digit of the fourth group (index 28 of
the text, after `urn:uuid:`) is one of 4, 5, 6, 7 and never one of 8, 9, a, b. -/
theorem makeUUID_variant_nibble (cupsHashData : List Char → Nat → Nat)
    (system : pappl_system_t) (printer_name : Option (List Char)) (job_id : Int)
    (extra : Nat) (rand : RandState) :
    let text :=
      (_papplSystemMakeUUID cupsHashData system printer_name job_id (46 + extra) rand).1
    (text.get? 28 = some '4' ∨ text.get? 28 = some '5' ∨ text.get? 28 = some '6' ∨
      text.get? 28 = some '7') ∧
    text.get? 28 ≠ some '8' ∧ text.get? 28 ≠ some '9' ∧ text.get? 28 ≠ some 'a' ∧
      text.get? 28 ≠ some 'b' := by
  intro text
  have ht : text = uuidText _ :=
    makeUUID_text cupsHashData system printer_name job_id (46 + extra) rand (by omega)
  have hb : ∀ i,
      cupsHashData (_papplSystemMakeUUID_data system printer_name job_id rand).1 i % 256 < 256 :=
    fun i => Nat.mod_lt _ (by norm_num)
  have hn := (variant_byte _ (hb 15)).1
  have key : text.get? 28 = some (Nat.digitChar
      (((cupsHashData (_papplSystemMakeUUID_data system printer_name job_id rand).1 15 % 256
        &&& 0x3f) ||| 0x40) / 16)) := by
    rw [ht, uuidText_eq]; rfl
  rw [key]
  rcases hn with e | e | e | e <;> rw [e] <;> decide

/-- Claim C3: for every digest and a buffer that holds the whole string (46 bytes or more)
the UUID text of `_papplSystemMakeUUID` has 45 characters, starts with `urn:uuid:`, has its
dashes after the 8th, 12th, 16th and 20th hex digit, and the first hex digit of the third
group (index 23) is the character 3, whatever digest byte 10 is. -/
theorem makeUUID_version_nibble (cupsHashData : List Char → Nat → Nat)
    (system : pappl_system_t) (printer_name : Option (List Char)) (job_id : Int)
    (bufsize : Nat) (rand : RandState) (h : 46 ≤ bufsize) :
    let text := (_papplSystemMakeUUID cupsHashData system printer_name job_id bufsize rand).1
    text.length = 45 ∧ text.take 9 = "urn:uuid:".toList ∧
      text.get? 17 = some '-' ∧ text.get? 22 = some '-' ∧ text.get? 27 = some '-' ∧
      text.get? 32 = some '-' ∧ text.get? 23 = some '3' := by
  intro text
  have ht : text = uuidText _ :=
    makeUUID_text cupsHashData system printer_name job_id bufsize rand h
  have hb : ∀ i,
      cupsHashData (_papplSystemMakeUUID_data system printer_name job_id rand).1 i % 256 < 256 :=
    fun i => Nat.mod_lt _ (by norm_num)
  have hv := (version_byte _ (hb 10)).1
  rw [ht]
  refine ⟨uuidText_length _, ?_, ?_, ?_, ?_, ?_, ?_⟩
  · rw [uuidText_eq]; rfl
  · rw [uuidText_eq]; rfl
  · rw [uuidText_eq]; rfl
  · rw [uuidText_eq]; rfl
  · rw [uuidText_eq]; rfl
  · rw [uuidText_eq]
    show some (Nat.digitChar _) = some '3'
    rw [hv]; rfl

/-- The version nibble of a system UUID made from an all-zero digest in a 64-byte buffer. -/
theorem makeUUID_version_nibble_witness :
    46 ≤ 64 ∧
      ((_papplSystemMakeUUID (fun _ _ => 0) pappl_system_t.zeroed none 0 64
        { seq := fun _ => 0, pos := 0 }).1).get? 23 = some '3' :=
  ⟨by decide, (makeUUID_version_nibble (fun _ _ => 0) pappl_system_t.zeroed none 0 64
    { seq := fun _ => 0, pos := 0 } (by decide)).2.2.2.2.2.2⟩

/-- Claim C4: printer UUIDs are deterministic.  For every system, port and printer name, a
call with job id 0 builds the key `_PAPPL_PRINTER_:<uuid>:<port>:<name>` (as `snprintf`
stores it in the 1024-byte array, in full when it is shorter than 1024 bytes), whatever the
random source; it leaves the random source untouched; and two calls return the same text.
With a non-zero job id the key ends with the next value of the random source, printed as
`%08x`, and the random source has advanced by that one value. -/
theorem printer_uuid_deterministic (cupsHashData : List Char → Nat → Nat)
    (system : pappl_system_t) (printer_name : List Char) (bufsize : Nat)
    (rand1 rand2 : RandState) :
    (_papplSystemMakeUUID_data system (some printer_name) 0 rand1).1
        = snprintf 1024 ("_PAPPL_PRINTER_:".toList ++ fmt_s system.uuid ++ ":".toList
            ++ fmt_d system.port ++ ":".toList ++ printer_name)
      ∧ (("_PAPPL_PRINTER_:".toList ++ fmt_s system.uuid ++ ":".toList
            ++ fmt_d system.port ++ ":".toList ++ printer_name).length < 1024 →
          (_papplSystemMakeUUID_data system (some printer_name) 0 rand1).1
            = "_PAPPL_PRINTER_:".toList ++ fmt_s system.uuid ++ ":".toList
                ++ fmt_d system.port ++ ":".toList ++ printer_name)
      ∧ (_papplSystemMakeUUID_data system (some printer_name) 0 rand2).1
          = (_papplSystemMakeUUID_data system (some printer_name) 0 rand1).1
      ∧ (_papplSystemMakeUUID cupsHashData system (some printer_name) 0 bufsize rand1).2 = rand1
      ∧ (_papplSystemMakeUUID cupsHashData system (some printer_name) 0 bufsize rand2).1
          = (_papplSystemMakeUUID cupsHashData system (some printer_name) 0 bufsize rand1).1
      ∧ (∀ job_id : Int, job_id ≠ 0 →
          _papplSystemMakeUUID_data system (some printer_name) job_id rand1
            = (snprintf 1024 ("_PAPPL_JOB_:".toList ++ fmt_s system.uuid ++ ":".toList
                  ++ fmt_d system.port ++ ":".toList ++ printer_name ++ ":".toList
                  ++ fmt_d job_id ++ ":".toList ++ fmt08x (rand1.seq rand1.pos % 2 ^ 32)),
                { rand1 with pos := rand1.pos + 1 })
          ∧ (_papplSystemMakeUUID cupsHashData system (some printer_name) job_id bufsize
                rand1).2 = { rand1 with pos := rand1.pos + 1 }) := by
  have hkey : ∀ r, _papplSystemMakeUUID_data system (some printer_name) 0 r
      = (snprintf 1024 ("_PAPPL_PRINTER_:".toList ++ fmt_s system.uuid ++ ":".toList
            ++ fmt_d system.port ++ ":".toList ++ printer_name), r) := by
    intro r
    simp [_papplSystemMakeUUID_data]
  refine ⟨by rw [hkey], ?_, by rw [hkey, hkey], ?_, ?_, ?_⟩
  · intro hlen
    rw [hkey]
    exact snprintf_of_length_lt _ _ hlen
  · simp [_papplSystemMakeUUID, hkey]
  · simp [_papplSystemMakeUUID, hkey]
  · intro job_id hjob
    have hjob_key : _papplSystemMakeUUID_data system (some printer_name) job_id rand1
        = (snprintf 1024 ("_PAPPL_JOB_:".toList ++ fmt_s system.uuid ++ ":".toList
              ++ fmt_d system.port ++ ":".toList ++ printer_name ++ ":".toList
              ++ fmt_d job_id ++ ":".toList ++ fmt08x (rand1.seq rand1.pos % 2 ^ 32)),
            { rand1 with pos := rand1.pos + 1 }) := by
      simp [_papplSystemMakeUUID_data, hjob, _papplGetRand]
    exact ⟨hjob_key, by simp [_papplSystemMakeUUID, hjob_key]⟩

/-- A job UUID for printer `lp`, job 7: the key fits the array and one random value is
consumed. -/
theorem printer_uuid_deterministic_witness :
    (7 : Int) ≠ 0 ∧
    (_papplSystemMakeUUID_data pappl_system_t.zeroed (some "lp".toList) 0
        { seq := fun _ => 5, pos := 0 }).1 = "_PAPPL_PRINTER_:(null):0:lp".toList ∧
    (_papplSystemMakeUUID (fun _ _ => 0) pappl_system_t.zeroed (some "lp".toList) 7 64
      { seq := fun _ => 5, pos := 0 }).2.pos = 1 := by
  have h := printer_uuid_deterministic (fun _ _ => 0) pappl_system_t.zeroed "lp".toList 64
    { seq := fun _ => 5, pos := 0 } { seq := fun _ => 5, pos := 0 }
  refine ⟨by decide, ?_, ?_⟩
  · rw [h.2.1 (by decide)]; rfl
  · rw [(h.2.2.2.2.2 7 (by decide)).2]

/-! ## `papplDeviceWrite` and `papplDeviceRead` -/

theorem toSsize_of_lt (n : Nat) (h : n < 2 ^ 63) : toSsize n = (n : Int) := by
  unfold toSsize
  have h1 : n % 2 ^ 64 = n := Nat.mod_eq_of_lt (by omega)
  rw [h1, if_pos h]

theorem fatal_error_of_retry (e : Nat) (he : e = EINTR ∨ e = EAGAIN) :
    (IoResult.error e).fatal = false := by
  rcases he with h | h <;> simp [IoResult.fatal, h]

theorem fatal_error_of_not_retry (e : Nat) (he : ¬(e = EINTR ∨ e = EAGAIN)) :
    (IoResult.error e).fatal = true := by
  push_neg at he
  simp [IoResult.fatal, he.1, he.2]

theorem okSum_take_mono (l : List IoResult) : ∀ (k k2 : Nat), k ≤ k2 →
    okSum (l.take k) ≤ okSum (l.take k2) := by
  induction l with
  | nil => intro k k2 _; simp
  | cons o rest ih =>
    intro k k2 hk
    cases k with
    | zero => simp [okSum]
    | succ k =>
      cases k2 with
      | zero => omega
      | succ k2 =>
        have := ih k k2 (by omega)
        cases o <;> simp [okSum] <;> omega

theorem le_of_noFatal_of_fatal (l : List IoResult) (k k2 : Nat)
    (h1 : ∀ o ∈ l.take k, o.fatal = false)
    (h2 : ∃ o, l[k2]? = some o ∧ o.fatal = true) : k ≤ k2 := by
  by_contra hlt
  push_neg at hlt
  obtain ⟨o, hg, hf⟩ := h2
  have hmem : o ∈ l.take k := by
    rw [List.mem_iff_getElem?]
    exact ⟨k2, by rw [List.getElem?_take_of_lt hlt]; exact hg⟩
  have := h1 o hmem
  rw [hf] at this
  exact absurd this (by decide)

theorem noFatal_cons (o : IoResult) (rest : List IoResult) (k : Nat) (ho : o.fatal = false)
    (h : ∀ x ∈ rest.take k, x.fatal = false) :
    ∀ x ∈ (o :: rest).take (k + 1), x.fatal = false := by
  intro x hx
  simp only [List.take_succ_cons, List.mem_cons] at hx
  rcases hx with rfl | hx
  · exact ho
  · exact h x hx

/-- The write loop, started with `total` bytes already written, ends either with all bytes
written after a failure-free run of outcomes, or with `-1` at the first non-retryable
failure, met before the last byte. -/
theorem writeLoop_spec (bytes : Nat) : ∀ (outs : List IoResult) (total : Nat) (r : Int),
    total ≤ bytes → withinRemaining (bytes - total) outs = true →
    writeLoop bytes total outs = some r →
    (r = toSsize bytes ∧ ∃ k, k ≤ outs.length ∧ (∀ o ∈ outs.take k, o.fatal = false) ∧
        total + okSum (outs.take k) = bytes)
    ∨ (r = -1 ∧ ∃ k, k < outs.length ∧ (∀ o ∈ outs.take k, o.fatal = false) ∧
        (∃ o, outs[k]? = some o ∧ o.fatal = true) ∧
        total + okSum (outs.take k) < bytes) := by
  intro outs
  induction outs with
  | nil =>
    intro total r hle _ hr
    unfold writeLoop at hr
    split_ifs at hr with hlt
    simp only [Option.some.injEq] at hr
    have : total = bytes := by omega
    subst this
    exact Or.inl ⟨hr.symm, 0, by simp, by simp, by simp [okSum]⟩
  | cons o rest ih =>
    intro total r hle hv hr
    unfold writeLoop at hr
    by_cases hlt : total < bytes
    · simp only [hlt, if_true] at hr
      have hrem : bytes - total ≠ 0 := by omega
      unfold withinRemaining at hv
      simp only [hrem, if_false] at hv
      cases o with
      | error e =>
        simp only at hr hv
        by_cases he : e = EINTR ∨ e = EAGAIN
        · simp only [he, if_true] at hr hv
          have hnf0 := fatal_error_of_retry e he
          rcases ih total r hle hv hr with ⟨h1, k, hk, hnf, hs⟩ | ⟨h1, k, hk, hnf, hf, hs⟩
          · exact Or.inl ⟨h1, k + 1, by simp; omega, noFatal_cons _ _ _ hnf0 hnf,
              by simpa [okSum] using hs⟩
          · exact Or.inr ⟨h1, k + 1, by simp; omega, noFatal_cons _ _ _ hnf0 hnf,
              by simpa using hf, by simpa [okSum] using hs⟩
        · simp only [he, if_false, Option.some.injEq] at hr
          exact Or.inr ⟨hr.symm, 0, by simp, by simp,
            ⟨_, by simp, fatal_error_of_not_retry e he⟩, by simpa [okSum] using hlt⟩
      | ok c =>
        simp only [Bool.and_eq_true, decide_eq_true_eq] at hr hv
        have hle2 : total + c ≤ bytes := by omega
        have hv2 : withinRemaining (bytes - (total + c)) rest = true := by
          have : bytes - (total + c) = bytes - total - c := by omega
          rw [this]; exact hv.2
        have hnf0 : (IoResult.ok c).fatal = false := rfl
        rcases ih (total + c) r hle2 hv2 hr with ⟨h1, k, hk, hnf, hs⟩ | ⟨h1, k, hk, hnf, hf, hs⟩
        · exact Or.inl ⟨h1, k + 1, by simp; omega, noFatal_cons _ _ _ hnf0 hnf,
            by simp only [List.take_succ_cons, okSum]; omega⟩
        · exact Or.inr ⟨h1, k + 1, by simp; omega, noFatal_cons _ _ _ hnf0 hnf,
            by simpa using hf, by simp only [List.take_succ_cons, okSum]; omega⟩
    · simp only [hlt, if_false, Option.some.injEq] at hr
      have : total = bytes := by omega
      subst this
      exact Or.inl ⟨hr.symm, 0, by simp, by simp, by simp [okSum]⟩

/-- Claim C5: for every fd-backed handle, every requested length `n` (a buffer size, hence
at most `SSIZE_MAX`) and every sequence of outcomes of the underlying `write` in which each
successful call transfers at most the bytes remaining, whenever `papplDeviceWrite` returns
its result is exactly `n` or `-1`; it is `n` exactly when a failure-free run of outcomes has
successful counts that sum to `n`, and `-1` exactly when a failure other than EINTR/EAGAIN
occurs while the successful counts before it sum to less than `n`. -/
theorem papplDeviceWrite_all_or_nothing (device : pappl_device_t) (n : Nat)
    (writes : List IoResult) (bulk : BulkResult) (r : Int)
    (hfd : 0 ≤ device.fd) (hn : n < 2 ^ 63) (hvalid : withinRemaining n writes = true)
    (hr : papplDeviceWrite (some device) n writes bulk = some r) :
    (r = (n : Int) ∨ r = -1) ∧
    (r = (n : Int) ↔ ∃ k, k ≤ writes.length ∧ (∀ o ∈ writes.take k, o.fatal = false) ∧
        okSum (writes.take k) = n) ∧
    (r = -1 ↔ ∃ k, k < writes.length ∧ (∃ o, writes[k]? = some o ∧ o.fatal = true) ∧
        okSum (writes.take k) < n) := by
  have hloop : writeLoop n 0 writes = some r := by
    simpa [papplDeviceWrite, hfd] using hr
  have hspec := writeLoop_spec n writes 0 r (Nat.zero_le _) (by simpa using hvalid) hloop
  rw [toSsize_of_lt n hn] at hspec
  simp only [Nat.zero_add] at hspec
  have hne : (n : Int) ≠ -1 := by omega
  rcases hspec with ⟨h1, k, hk, hnf, hs⟩ | ⟨h1, k, hk, hnf, hf, hs⟩
  · refine ⟨Or.inl h1, ⟨fun _ => ⟨k, hk, hnf, hs⟩, fun _ => h1⟩, ?_⟩
    constructor
    · intro h; rw [h1] at h; exact absurd h hne
    · rintro ⟨k2, _, hf2, hs2⟩
      have hle := le_of_noFatal_of_fatal writes k k2 hnf hf2
      have := okSum_take_mono writes k k2 hle
      omega
  · refine ⟨Or.inr h1, ?_, ⟨fun _ => ⟨k, hk, hf, hs⟩, fun _ => h1⟩⟩
    constructor
    · intro h; rw [h1] at h; exact absurd h.symm hne
    · rintro ⟨k2, _, hnf2, hs2⟩
      have hle := le_of_noFatal_of_fatal writes k2 k hnf2 hf
      have := okSum_take_mono writes k2 k hle
      omega

/-- A write of 5 bytes sent as 2 bytes, an interrupted call and 3 bytes returns 5, and a
write of 5 bytes that fails after 2 bytes returns `-1`. -/
theorem papplDeviceWrite_all_or_nothing_witness :
    papplDeviceWrite (some { pappl_device_t.zeroed with fd := 3 }) 5
        [IoResult.ok 2, IoResult.error EINTR, IoResult.ok 3] { status := 0, count := 0 }
      = some 5 ∧
    ((5 : Int) = ((5 : Nat) : Int) ↔ ∃ k, k ≤ 3 ∧
      (∀ o ∈ [IoResult.ok 2, IoResult.error EINTR, IoResult.ok 3].take k, o.fatal = false) ∧
      okSum ([IoResult.ok 2, IoResult.error EINTR, IoResult.ok 3].take k) = 5) :=
  ⟨by decide, (papplDeviceWrite_all_or_nothing { pappl_device_t.zeroed with fd := 3 } 5
    [IoResult.ok 2, IoResult.error EINTR, IoResult.ok 3] { status := 0, count := 0 } 5
    (by decide) (by norm_num) (by decide) (by decide)).2.1⟩

theorem readLoop_retry_append (more : List IoResult) (outs : List IoResult)
    (hmore : ∀ r ∈ more, r.retryable = true) : readLoop (more ++ outs) = readLoop outs := by
  induction more with
  | nil => rfl
  | cons o rest ih =>
    have ho := hmore o (List.mem_cons_self _ _)
    have hrest := ih (fun r hr => hmore r (List.mem_cons_of_mem _ hr))
    cases o with
    | ok c => simp [IoResult.retryable] at ho
    | error e =>
      simp only [IoResult.retryable, Bool.or_eq_true, decide_eq_true_eq] at ho
      have : ¬(e ≠ EINTR ∧ e ≠ EAGAIN) := by
        rintro ⟨h1, h2⟩; rcases ho with h | h <;> contradiction
      simp only [List.cons_append, readLoop, this, if_false]
      exact hrest

theorem readLoop_first (o : IoResult) (rest : List IoResult) (ho : o.retryable = false) :
    readLoop (o :: rest) = some o.value := by
  cases o with
  | ok c => rfl
  | error e =>
    simp only [IoResult.retryable, Bool.or_eq_false_iff, decide_eq_false_iff_not] at ho
    simp [readLoop, IoResult.value, ho.1, ho.2]

/-- Claim C6: for every fd-backed handle and every sequence of outcomes of the underlying
`read` that consists of EINTR/EAGAIN failures followed by an outcome `o` of another kind,
`papplDeviceRead` returns the value of `o`: 0 if and only if `o` is end-of-stream (a read of
0 bytes), `-1` if and only if `o` is a non-retryable failure, and the byte count otherwise;
and prepending EINTR/EAGAIN failures to any sequence of outcomes does not change the
result. -/
theorem papplDeviceRead_first_final_outcome (device : pappl_device_t)
    (retries : List IoResult) (o : IoResult) (rest : List IoResult) (bulk : BulkResult)
    (hfd : 0 ≤ device.fd) (hretries : ∀ r ∈ retries, r.retryable = true)
    (ho : o.retryable = false) :
    papplDeviceRead (some device) (retries ++ o :: rest) bulk = some o.value ∧
    (papplDeviceRead (some device) (retries ++ o :: rest) bulk = some 0 ↔ o = IoResult.ok 0) ∧
    (papplDeviceRead (some device) (retries ++ o :: rest) bulk = some (-1) ↔ o.fatal = true) ∧
    (∀ c, o = IoResult.ok c →
      papplDeviceRead (some device) (retries ++ o :: rest) bulk = some (c : Int)) ∧
    (∀ more outs : List IoResult, (∀ r ∈ more, r.retryable = true) →
      papplDeviceRead (some device) (more ++ outs) bulk
        = papplDeviceRead (some device) outs bulk) := by
  have hread : ∀ outs, papplDeviceRead (some device) outs bulk = readLoop outs := by
    intro outs; simp [papplDeviceRead, hfd]
  have hval : papplDeviceRead (some device) (retries ++ o :: rest) bulk = some o.value := by
    rw [hread, readLoop_retry_append retries _ hretries, readLoop_first o rest ho]
  refine ⟨hval, ?_, ?_, ?_, ?_⟩
  · rw [hval]
    cases o with
    | ok c =>
      simp only [IoResult.value, Option.some.injEq, IoResult.ok.injEq]
      omega
    | error e => simp [IoResult.value]
  · rw [hval]
    cases o with
    | ok c =>
      simp only [IoResult.value, Option.some.injEq, IoResult.fatal]
      constructor
      · intro h; omega
      · intro h; exact absurd h (by decide)
    | error e =>
      simp only [IoResult.retryable] at ho
      simp [IoResult.value, IoResult.fatal, ho]
  · intro c hc
    rw [hval, hc]; rfl
  · intro more outs hmore
    rw [hread, hread, readLoop_retry_append more outs hmore]

/-- A read interrupted twice and then meeting end-of-stream returns 0. -/
theorem papplDeviceRead_first_final_outcome_witness :
    papplDeviceRead (some { pappl_device_t.zeroed with fd := 3 })
      ([IoResult.error EINTR, IoResult.error EAGAIN] ++ IoResult.ok 0 :: [IoResult.ok 7])
      { status := 0, count := 0 } = some 0 :=
  (papplDeviceRead_first_final_outcome { pappl_device_t.zeroed with fd := 3 }
    [IoResult.error EINTR, IoResult.error EAGAIN] (IoResult.ok 0) [IoResult.ok 7]
    { status := 0, count := 0 } (by decide) (by decide) (by decide)).1

/-! ## `papplDeviceOpen` -/

/-- Claim C7 (fails on the code): every failed `papplDeviceOpen` should reach the error
callback.  For a `usb` URI, when libusb initialises and the device list is empty, the call
returns no device and its only effect is `libusb_init`: the error callback is never invoked,
whatever the rest of the environment; and with one attached printer whose derived URI is
`usb://Acme/X1?serial=2`, opening `usb://Acme/X1?serial=1` returns no device after the
effects init, open, callback, close, again without any error message. -/
theorem papplDeviceOpen_usb_not_found_silent :
    (∀ (env : OpenEnv) (parts : UriParts) (uri : List Char) (err_cb : Bool),
      papplDeviceOpen
        { env with
          httpSeparateURI := fun _ => { parts with status := 0, scheme := "usb".toList }
          callocOk := true
          have_libusb := true
          usb := { env.usb with initStatus := 0, udevs := [] } }
        (some uri) err_cb = some (none, [DevEvent.usbInit])) ∧
    papplDeviceOpen (usbOpenEnv [attachedPrinter]) (some "usb://Acme/X1?serial=1".toList) true
      = some (none, [DevEvent.usbInit, DevEvent.usbOpen 0,
          DevEvent.callback "usb://Acme/X1?serial=2".toList, DevEvent.usbClose 0]) := by
  constructor
  · intro env parts uri err_cb
    simp [papplDeviceOpen, HTTP_URI_STATUS_OK, pappl_find_usb, scanDevices]
  · decide

/-- Claim C8: for every URI that is `NULL` or that `httpSeparateURI` rejects (status below
`HTTP_URI_STATUS_OK`), `papplDeviceOpen` returns no device and its effects are exactly one
invocation of the error callback: no file, socket or USB call is made.  (Without an error
callback there is no effect at all.) -/
theorem papplDeviceOpen_bad_uri (env : OpenEnv) (device_uri : Option (List Char))
    (hbad : device_uri = none ∨
      ∃ uri, device_uri = some uri ∧ (env.httpSeparateURI uri).status < HTTP_URI_STATUS_OK) :
    (∃ message, papplDeviceOpen env device_uri true
        = some (none, [DevEvent.errorSink message])) ∧
    papplDeviceOpen env device_uri false = some (none, []) := by
  rcases hbad with h | ⟨uri, h, hs⟩
  · subst h
    exact ⟨⟨_, by simp [papplDeviceOpen, pappl_error]; rfl⟩,
      by simp [papplDeviceOpen, pappl_error]⟩
  · subst h
    exact ⟨⟨_, by simp [papplDeviceOpen, pappl_error, hs]; rfl⟩,
      by simp [papplDeviceOpen, pappl_error, hs]⟩

/-- A URI rejected by the parser: one error message and no device. -/
theorem papplDeviceOpen_bad_uri_witness :
    (rejectingEnv.httpSeparateURI "usb:".toList).status < HTTP_URI_STATUS_OK ∧
    ∃ message, papplDeviceOpen rejectingEnv (some "usb:".toList) true
      = some (none, [DevEvent.errorSink message]) :=
  ⟨by decide, (papplDeviceOpen_bad_uri rejectingEnv (some "usb:".toList)
    (Or.inr ⟨"usb:".toList, rfl, by decide⟩)).1⟩

/-! ## IEEE-1284 device ID -/

theorem lengthBytes_eq (x y : Nat) :
    ((x &&& 255) <<< 8) ||| (y &&& 255) = (x % 256) * 256 + y % 256 := by
  have hx : x &&& 255 = x % 256 := Nat.and_pow_two_sub_one_eq_mod x 8
  have hy : y &&& 255 = y % 256 := Nat.and_pow_two_sub_one_eq_mod y 8
  have hlt : y % 256 < 2 ^ 8 := Nat.mod_lt _ (by norm_num)
  rw [hx, hy, Nat.shiftLeft_eq, Nat.mul_comm, ← Nat.mul_add_lt_is_or hlt]

/-- The value of `length` in terms of the two readings of the leading bytes. -/
theorem deviceIdLength_eq (b0 b1 : Nat) :
    deviceIdLength b0 b1 =
      ((min (if 14 ≤ bigEndianLength b0 b1 ∧ bigEndianLength b0 b1 ≤ 1024
              then bigEndianLength b0 b1 else littleEndianLength b0 b1) 1024 : Nat) : Int)
        - 2 := by
  unfold deviceIdLength bigEndianLength littleEndianLength
  simp only [lengthBytes_eq]
  congr 2
  split_ifs <;> omega

theorem takeWhile_terminated (p : Char → Bool) (a : List Char) (c : Char) (b : List Char)
    (hc : p c = false) : (a ++ c :: b).takeWhile p = a.takeWhile p := by
  induction a with
  | nil => simp [List.takeWhile, hc]
  | cons x xs ih =>
    simp only [List.cons_append, List.takeWhile_cons]
    split
    · rw [ih]
    · rfl

theorem strip_shape (device_id : List Char) (n : Nat) (h : n + 2 ≤ device_id.length) :
    ∃ rest, (((device_id.drop 2).take n) ++ device_id.drop n).set n NUL
        = (device_id.drop 2).take n ++ NUL :: rest ∧
      rest.length + n + 1 = device_id.length := by
  have hl1 : ((device_id.drop 2).take n).length = n := by
    simp [List.length_take]; omega
  have hB : (device_id.drop n).length = device_id.length - n := by simp
  cases hd : device_id.drop n with
  | nil => rw [hd] at hB; simp at hB; omega
  | cons b rest =>
    refine ⟨rest, ?_, ?_⟩
    · rw [List.set_append_right _ _ (by omega), hl1, Nat.sub_self]
      rfl
    · rw [hd] at hB; simp at hB; omega

/-- The leading bytes `00 00` make `length` negative: the missing lower-bound check after
the little-endian fallback. -/
theorem deviceIdLength_zero_bytes :
    deviceIdLength 0 0 = -2 ∧ stripDeviceIdLength (deviceIdBuffer []) = none := by
  decide

/-- Claim C9, as stated, fails: with leading bytes `05 05` both readings are 1285, outside
[14, 1024], yet the resulting Device ID is not the empty string (the length is clamped to
1024 and the text after the two bytes is kept). -/
theorem deviceId_out_of_range_not_emptied :
    ¬ ((¬ (14 ≤ bigEndianLength 5 5 ∧ bigEndianLength 5 5 ≤ 1024) ∧
        ¬ (14 ≤ littleEndianLength 5 5 ∧ littleEndianLength 5 5 ≤ 1024)) →
      deviceIdString (deviceIdBuffer (Char.ofNat 5 :: Char.ofNat 5 :: "MFG:Acme;".toList))
        = some []) := by
  decide

/-- Claim C9, amended: for every pair of leading bytes the length used is the big-endian
value when it lies in [14, 1024] and otherwise the little-endian value; whenever the value
used is at least 14, it is clamped to 1024, the number of bytes copied and the index of the
written terminator are that value minus 2, within 12..1022, and the Device ID is the text
that follows the two bytes, up to that many bytes (cut at the first NUL). -/
theorem deviceIdLength_clamped (b0 b1 : Nat)
    (hsel : 14 ≤ (if 14 ≤ bigEndianLength b0 b1 ∧ bigEndianLength b0 b1 ≤ 1024
      then bigEndianLength b0 b1 else littleEndianLength b0 b1)) :
    deviceIdLength b0 b1 =
      ((min (if 14 ≤ bigEndianLength b0 b1 ∧ bigEndianLength b0 b1 ≤ 1024
              then bigEndianLength b0 b1 else littleEndianLength b0 b1) 1024 : Nat) : Int)
        - 2 ∧
    12 ≤ deviceIdLength b0 b1 ∧ deviceIdLength b0 b1 ≤ 1022 ∧
    ∀ device_id : List Char, device_id.length = 1024 →
      (device_id.getD 0 NUL).toNat = b0 → (device_id.getD 1 NUL).toNat = b1 →
      ∃ out, stripDeviceIdLength device_id = some out ∧ out.length = 1024 ∧
        out.take (deviceIdLength b0 b1).toNat
          = (device_id.drop 2).take (deviceIdLength b0 b1).toNat ∧
        out[(deviceIdLength b0 b1).toNat]? = some NUL ∧
        deviceIdString device_id
          = some (((device_id.drop 2).take (deviceIdLength b0 b1).toNat).takeWhile
              (fun c => c != NUL)) := by
  have hrange : 12 ≤ deviceIdLength b0 b1 ∧ deviceIdLength b0 b1 ≤ 1022 := by
    rw [deviceIdLength_eq]
    omega
  refine ⟨deviceIdLength_eq b0 b1, hrange.1, hrange.2, ?_⟩
  intro device_id hlen hb0 hb1
  obtain ⟨n, hn⟩ : ∃ n : Nat, deviceIdLength b0 b1 = (n : Int) :=
    ⟨(deviceIdLength b0 b1).toNat, (Int.toNat_of_nonneg (by omega)).symm⟩
  have hn2 : n ≤ 1022 := by have := hrange.2; omega
  have hstrip : stripDeviceIdLength device_id
      = some ((((device_id.drop 2).take n) ++ device_id.drop n).set n NUL) := by
    unfold stripDeviceIdLength
    simp only [hb0, hb1, hn]
    simp
  have hl1 : ((device_id.drop 2).take n).length = n := by
    simp [List.length_take, hlen]; omega
  obtain ⟨rest, hshape, hrest⟩ := strip_shape device_id n (by omega)
  rw [hn]
  simp only [Int.toNat_ofNat]
  rw [hshape] at hstrip
  refine ⟨_, hstrip, ?_, ?_, ?_, ?_⟩
  · simp [hl1]; omega
  · rw [List.take_append_of_le_length (by omega), List.take_of_length_le (by omega)]
  · rw [List.getElem?_append_right (by omega), hl1, Nat.sub_self]
    simp
  · unfold deviceIdString
    rw [hstrip]
    simp only [Option.map_some', cstr, List.drop_zero]
    rw [takeWhile_terminated _ _ _ _ (by decide)]

/-- The leading bytes `00 25` (big-endian 37): 35 bytes are copied and the terminator is
written at index 35. -/
theorem deviceIdLength_clamped_witness :
    14 ≤ (if 14 ≤ bigEndianLength 0 37 ∧ bigEndianLength 0 37 ≤ 1024
      then bigEndianLength 0 37 else littleEndianLength 0 37) ∧
    12 ≤ deviceIdLength 0 37 ∧ deviceIdLength 0 37 ≤ 1022 :=
  ⟨by decide, (deviceIdLength_clamped 0 37 (by decide)).2.1,
    (deviceIdLength_clamped 0 37 (by decide)).2.2.1⟩

/-- Claim C10 (fails on the code): the serial should be the text after the first matching
key.  For the key `SERIALNUMBER:` (13 characters) the source advances the pointer by 12
only: for the Device ID `MFG:Acme;MDL:X1;SERIALNUMBER:12345;`, also when it is read from the
raw transfer buffer, the parsed serial is `:12345` and not `12345`; with the keys `SERN:`
and `SN:` the same value is parsed as `12345`. -/
theorem parseDeviceId_serialnumber_keeps_colon :
    (parseDeviceId "MFG:Acme;MDL:X1;SERIALNUMBER:12345;".toList 0 []).serial
        = some ":12345".toList ∧
    (deviceIdString (deviceIdBuffer (Char.ofNat 0 :: Char.ofNat 37 ::
        "MFG:Acme;MDL:X1;SERIALNUMBER:12345;".toList))).map
        (fun id => (parseDeviceId id 0 []).serial) = some (some ":12345".toList) ∧
    (parseDeviceId "MFG:Acme;MDL:X1;SERN:12345;".toList 0 []).serial
        = some "12345".toList ∧
    (parseDeviceId "MFG:Acme;MDL:X1;SN:12345;".toList 0 []).serial
        = some "12345".toList := by
  decide

/-! ## The scan of alternate settings and endpoints -/

theorem scanEndpoints_eq_lastIndexFrom (eps : List libusb_endpoint_descriptor) :
    ∀ (k r w : Nat), scanEndpoints k eps (r, w)
      = (lastIndexFrom isBulkIn k eps r, lastIndexFrom isBulkOut k eps w) := by
  induction eps with
  | nil => intro k r w; rfl
  | cons e rest ih =>
    intro k r w
    unfold scanEndpoints
    simp only [lastIndexFrom, isBulkIn, isBulkOut]
    by_cases hb : e.bmAttributes &&& LIBUSB_TRANSFER_TYPE_MASK = LIBUSB_TRANSFER_TYPE_BULK
    · by_cases hd : e.bEndpointAddress &&& LIBUSB_ENDPOINT_DIR_MASK = 0
      · simp [hb, hd, ih]
      · simp [hb, hd, ih]
    · simp [hb, ih]

theorem lastIndexFrom_none {α : Type} (p : α → Bool) (l : List α) :
    ∀ (k d : Nat), (∀ e ∈ l, p e = false) → lastIndexFrom p k l d = d := by
  induction l with
  | nil => intro k d _; rfl
  | cons e rest ih =>
    intro k d h
    simp only [lastIndexFrom, h e (List.mem_cons_self _ _)]
    exact ih _ _ (fun x hx => h x (List.mem_cons_of_mem _ hx))

theorem lastIndexFrom_some {α : Type} (p : α → Bool) (l : List α) :
    ∀ (k d : Nat), (∃ e ∈ l, p e = true) →
      k ≤ lastIndexFrom p k l d ∧ lastIndexFrom p k l d < k + l.length ∧
      (∃ e, l[lastIndexFrom p k l d - k]? = some e ∧ p e = true) ∧
      ∀ j e, lastIndexFrom p k l d - k < j → l[j]? = some e → p e = false := by
  induction l with
  | nil => intro k d h; obtain ⟨e, he, _⟩ := h; simp at he
  | cons x rest ih =>
    intro k d h
    simp only [lastIndexFrom]
    by_cases hrest : ∃ e ∈ rest, p e = true
    · obtain ⟨h1, h2, ⟨e, he, hpe⟩, h4⟩ := ih (k + 1) (if p x then k else d) hrest
      set w := lastIndexFrom p (k + 1) rest (if p x then k else d) with hw
      have hsub : w - k = (w - (k + 1)) + 1 := by omega
      refine ⟨by omega, by simp; omega, ⟨e, ?_, hpe⟩, ?_⟩
      · rw [hsub, List.getElem?_cons_succ]; exact he
      · intro j e2 hj hje
        cases j with
        | zero => omega
        | succ j =>
          rw [List.getElem?_cons_succ] at hje
          exact h4 j e2 (by omega) hje
    · push_neg at hrest
      have hall : ∀ e ∈ rest, p e = false := by
        intro e he
        have := hrest e he
        simpa using this
      have hx : p x = true := by
        obtain ⟨e, he, hpe⟩ := h
        rcases List.mem_cons.mp he with rfl | he
        · exact hpe
        · rw [hall e he] at hpe; exact absurd hpe (by decide)
      rw [lastIndexFrom_none p rest _ _ hall]
      simp only [hx, if_true, Nat.sub_self]
      refine ⟨le_refl _, by simp, ⟨x, by simp, hx⟩, ?_⟩
      intro j e2 hj hje
      cases j with
      | zero => omega
      | succ j =>
        rw [List.getElem?_cons_succ] at hje
        exact hall e2 (List.getElem?_mem hje)

theorem scanAltsetting_no_bulkOut (device : pappl_device_t)
    (altptr : libusb_interface_descriptor) (h : ∀ e ∈ altptr.endpoint, isBulkOut e = false) :
    scanAltsetting device altptr = device := by
  unfold scanAltsetting
  rw [scanEndpoints_eq_lastIndexFrom, lastIndexFrom_none isBulkOut _ _ _ h]
  simp

/-- Claim C13 (fails on the code): a bi-directional candidate should need a read endpoint.
The scan adopts the protocol-2 alternate setting `bidiAltOutOnly`, which has a bulk-OUT and
no bulk-IN endpoint, and records the read endpoint 255 (the `uint8_t` value `0xff`), which
is neither `-1` nor an index of the one-element endpoint array; when the callback then
matches, the read of `endpoint[255].bEndpointAddress` lies outside the array, so the call of
`papplDeviceOpen` has no defined result.  A uni-directional candidate leaves the read
endpoint at `-1`. -/
theorem scan_adopts_bidi_without_read_endpoint :
    isPrinterCandidate bidiAltOutOnly = true ∧ bidiAltOutOnly.bInterfaceProtocol = 2 ∧
    (∀ e ∈ bidiAltOutOnly.endpoint, isBulkIn e = false) ∧
    scanAltsetting (resetDevice 0) bidiAltOutOnly
      = { resetDevice 0 with protocol := 2, altset := 0, ifacenum := 0, write_endp := 0
                             read_endp := 255 } ∧
    endpointAddress { bConfigurationValue := 1
                      interface := [{ altsetting := some [bidiAltOutOnly] }] } 0 0 255 = none ∧
    papplDeviceOpen (usbOpenEnv [outOnlyPrinter]) (some "usb://Acme/X1?serial=2".toList) true
      = none ∧
    (scanAltsetting (resetDevice 0) uniAltWithOut).read_endp = -1 := by
  decide

/-- Claim C18: for every endpoint list the write endpoint chosen is the index of the last
endpoint, in descriptor order, that is bulk with direction OUT, the read endpoint the index
of the last endpoint that is bulk with direction IN (`0xff` when there is none), endpoints
that are not bulk are skipped, and an alternate setting without a bulk-OUT endpoint leaves
the recorded protocol, alternate setting, interface number and endpoints of the device
unchanged. -/
theorem scanEndpoints_last_bulk (eps : List libusb_endpoint_descriptor) :
    ((∃ e ∈ eps, isBulkOut e = true) →
      (scanEndpoints 0 eps (0xff, 0xff)).2 < eps.length ∧
      (∃ e, eps[(scanEndpoints 0 eps (0xff, 0xff)).2]? = some e ∧ isBulkOut e = true) ∧
      ∀ j e, (scanEndpoints 0 eps (0xff, 0xff)).2 < j → eps[j]? = some e →
        isBulkOut e = false) ∧
    ((∀ e ∈ eps, isBulkOut e = false) → (scanEndpoints 0 eps (0xff, 0xff)).2 = 0xff) ∧
    ((∃ e ∈ eps, isBulkIn e = true) →
      (scanEndpoints 0 eps (0xff, 0xff)).1 < eps.length ∧
      (∃ e, eps[(scanEndpoints 0 eps (0xff, 0xff)).1]? = some e ∧ isBulkIn e = true) ∧
      ∀ j e, (scanEndpoints 0 eps (0xff, 0xff)).1 < j → eps[j]? = some e →
        isBulkIn e = false) ∧
    ((∀ e ∈ eps, isBulkIn e = false) → (scanEndpoints 0 eps (0xff, 0xff)).1 = 0xff) ∧
    (∀ (e : libusb_endpoint_descriptor) (k : Nat) (acc : Nat × Nat),
      e.bmAttributes &&& LIBUSB_TRANSFER_TYPE_MASK ≠ LIBUSB_TRANSFER_TYPE_BULK →
      scanEndpoints k (e :: eps) acc = scanEndpoints (k + 1) eps acc) ∧
    (∀ (device : pappl_device_t) (altptr : libusb_interface_descriptor),
      altptr.endpoint = eps → (∀ e ∈ eps, isBulkOut e = false) →
      scanAltsetting device altptr = device ∧
      (scanAltsetting device altptr).protocol = device.protocol ∧
      (scanAltsetting device altptr).altset = device.altset ∧
      (scanAltsetting device altptr).ifacenum = device.ifacenum ∧
      (scanAltsetting device altptr).write_endp = device.write_endp ∧
      (scanAltsetting device altptr).read_endp = device.read_endp) := by
  rw [scanEndpoints_eq_lastIndexFrom]
  refine ⟨?_, ?_, ?_, ?_, ?_, ?_⟩
  · intro h
    have := lastIndexFrom_some isBulkOut eps 0 0xff h
    simpa using this.2
  · intro h
    exact lastIndexFrom_none isBulkOut eps 0 0xff h
  · intro h
    have := lastIndexFrom_some isBulkIn eps 0 0xff h
    simpa using this.2
  · intro h
    exact lastIndexFrom_none isBulkIn eps 0 0xff h
  · intro e k acc hnb
    obtain ⟨r, w⟩ := acc
    conv_lhs => unfold scanEndpoints
    simp [hnb]
  · intro device altptr he h
    have := scanAltsetting_no_bulkOut device altptr (by rw [he]; exact h)
    rw [this]
    exact ⟨rfl, rfl, rfl, rfl, rfl, rfl⟩

/-- An alternate setting with an interrupt endpoint, a bulk-IN and two bulk-OUT endpoints:
the last bulk-OUT endpoint has index 3 and the last bulk-IN endpoint index 1. -/
theorem scanEndpoints_last_bulk_witness :
    (scanEndpoints 0
      [{ bmAttributes := 3, bEndpointAddress := 0x83 }, { bmAttributes := 2, bEndpointAddress := 0x81 },
       { bmAttributes := 2, bEndpointAddress := 0x01 }, { bmAttributes := 2, bEndpointAddress := 0x02 }]
      (0xff, 0xff)) = (1, 3) ∧
    (scanEndpoints 0
      [{ bmAttributes := 3, bEndpointAddress := 0x83 }, { bmAttributes := 2, bEndpointAddress := 0x81 },
       { bmAttributes := 2, bEndpointAddress := 0x01 }, { bmAttributes := 2, bEndpointAddress := 0x02 }]
      (0xff, 0xff)).2 < 4 :=
  ⟨by decide, ((scanEndpoints_last_bulk
      [{ bmAttributes := 3, bEndpointAddress := 0x83 }, { bmAttributes := 2, bEndpointAddress := 0x81 },
       { bmAttributes := 2, bEndpointAddress := 0x01 }, { bmAttributes := 2, bEndpointAddress := 0x02 }]
      ).1 ⟨{ bmAttributes := 2, bEndpointAddress := 0x02 }, by simp, by decide⟩).1⟩

/-! ## The main loop -/

@[simp] theorem emit_shutdown_time (s : pappl_system_t) (e : SysEvent) :
    (s.emit e).shutdown_time = s.shutdown_time := rfl

@[simp] theorem emit_printers (s : pappl_system_t) (e : SysEvent) :
    (s.emit e).printers = s.printers := rfl

@[simp] theorem papplLog_shutdown_time (s : pappl_system_t) (l : pappl_loglevel_t)
    (m : List Char) : (papplLog s l m).shutdown_time = s.shutdown_time := rfl

@[simp] theorem papplLog_printers (s : pappl_system_t) (l : pappl_loglevel_t)
    (m : List Char) : (papplLog s l m).printers = s.printers := rfl

@[simp] theorem emit_dns_sd_collision (s : pappl_system_t) (e : SysEvent) :
    (s.emit e).dns_sd_collision = s.dns_sd_collision := rfl

theorem emit_eq_appendTrace (s : pappl_system_t) (e : SysEvent) :
    s.emit e = s.appendTrace [e] := rfl

theorem appendTrace_nil (s : pappl_system_t) : s.appendTrace [] = s := by
  cases s
  simp [pappl_system_t.appendTrace]

theorem appendTrace_appendTrace (s : pappl_system_t) (a b : List SysEvent) :
    (s.appendTrace a).appendTrace b = s.appendTrace (a ++ b) := by
  simp [pappl_system_t.appendTrace, List.append_assoc]

/-- The accept loop leaves the fields read by the shutdown step unchanged. -/
theorem acceptClients_fields (inp : LoopInput) (system : pappl_system_t) :
    (acceptClients inp system).shutdown_time = system.shutdown_time ∧
    (acceptClients inp system).printers = system.printers := by
  unfold acceptClients
  generalize List.range system.num_listeners = l
  induction l generalizing system with
  | nil => exact ⟨rfl, rfl⟩
  | cons a rest ih =>
    rw [List.foldl_cons]
    refine ⟨(ih _).1.trans ?_, (ih _).2.trans ?_⟩
    · split
      · rfl
      · split_ifs <;> simp
    · split
      · rfl
      · split_ifs <;> simp

theorem registration_fold (all : List pappl_printer_t) :
    ∀ (suffix pre : List pappl_printer_t) (s : pappl_system_t), all = pre ++ suffix →
      (List.range' pre.length suffix.length).foldl
        (fun s i =>
          match all.get? i with
          | some p => if p.dns_sd_collision then s.emit (SysEvent.registerPrinterDNSSD i) else s
          | none => s) s
        = s.appendTrace (printerRegistrations pre.length suffix) := by
  intro suffix
  induction suffix with
  | nil => intro pre s _; simp [printerRegistrations, appendTrace_nil]
  | cons p rest ih =>
    intro pre s hall
    have hget : all.get? pre.length = some p := by
      rw [hall, List.get?_eq_getElem?, List.getElem?_append_right (le_refl _)]
      simp
    have hall2 : all = (pre ++ [p]) ++ rest := by rw [hall]; simp
    have := ih (pre ++ [p]) (if p.dns_sd_collision then s.emit (SysEvent.registerPrinterDNSSD pre.length) else s) hall2
    simp only [List.length_append, List.length_singleton] at this
    simp only [List.length_cons, List.range'_succ, List.foldl_cons, hget, printerRegistrations]
    rw [this]
    split_ifs
    · rw [emit_eq_appendTrace, appendTrace_appendTrace]
    · simp

/-- The collision step in closed form. -/
theorem handleCollisions_eq (system : pappl_system_t) :
    handleCollisions system =
      if system.dns_sd_any_collision then
        { system.appendTrace
            (SysEvent.rdlock ::
              ((if system.dns_sd_collision then [SysEvent.registerSystemDNSSD] else [])
                ++ printerRegistrations 0 system.printers ++ [SysEvent.unlock]))
          with dns_sd_any_collision := false }
      else system := by
  unfold handleCollisions
  by_cases h : system.dns_sd_any_collision = true
  · simp only [h, if_true]
    have hf := fun s => registration_fold system.printers system.printers [] s rfl
    simp only [List.length_nil, ← List.range_eq_range'] at hf
    simp only [emit_dns_sd_collision]
    rcases Bool.eq_false_or_eq_true system.dns_sd_collision with hcv | hcv
    · simp only [hcv, if_true, emit_printers]
      rw [hf]
      simp [pappl_system_t.appendTrace, pappl_system_t.emit]
    · simp only [hcv, Bool.false_eq_true, if_false, emit_printers]
      rw [hf]
      simp [pappl_system_t.appendTrace, pappl_system_t.emit]
  · simp [h]

theorem handleCollisions_fields (system : pappl_system_t) :
    (handleCollisions system).shutdown_time = system.shutdown_time ∧
    (handleCollisions system).printers = system.printers := by
  rw [handleCollisions_eq]
  split_ifs <;> exact ⟨rfl, rfl⟩

theorem handleSave_fields (system : pappl_system_t) :
    (handleSave system).shutdown_time = system.shutdown_time ∧
    (handleSave system).printers = system.printers := by
  unfold handleSave
  split_ifs <;> exact ⟨rfl, rfl⟩

theorem activeJobs_fold (all : List pappl_printer_t) :
    ∀ (suffix pre : List pappl_printer_t) (acc : pappl_system_t × Int), all = pre ++ suffix →
      (List.range' pre.length suffix.length).foldl
        (fun (acc : pappl_system_t × Int) i =>
          match all.get? i with
          | some p =>
            (((acc.1.emit (SysEvent.printerRdlock i)).emit (SysEvent.printerUnlock i)),
              acc.2 + (p.active_jobs : Int))
          | none => acc) acc
        = (acc.1.appendTrace (printerLockEvents pre.length suffix.length),
            acc.2 + (suffix.map (fun p => (p.active_jobs : Int))).sum) := by
  intro suffix
  induction suffix with
  | nil => intro pre acc _; simp [printerLockEvents, appendTrace_nil]
  | cons p rest ih =>
    intro pre acc hall
    have hget : all.get? pre.length = some p := by
      rw [hall, List.get?_eq_getElem?, List.getElem?_append_right (le_refl _)]
      simp
    have hall2 : all = (pre ++ [p]) ++ rest := by rw [hall]; simp
    have := ih (pre ++ [p]) (((acc.1.emit (SysEvent.printerRdlock pre.length)).emit
      (SysEvent.printerUnlock pre.length)), acc.2 + (p.active_jobs : Int)) hall2
    simp only [List.length_append, List.length_singleton] at this
    simp only [List.length_cons, List.range'_succ, List.foldl_cons, hget, printerLockEvents]
    rw [this]
    refine Prod.ext ?_ ?_
    · simp only [emit_eq_appendTrace, appendTrace_appendTrace]
      rfl
    · simp only [List.map_cons, List.sum_cons]
      ring

/-- The count of active jobs in closed form: the system lock is taken shared, each printer
lock is taken and released in turn, and the result is the sum of the active-job counts. -/
theorem countActiveJobs_eq (system : pappl_system_t) :
    countActiveJobs system =
      (system.appendTrace (SysEvent.rdlock ::
          (printerLockEvents 0 system.printers.length ++ [SysEvent.unlock])),
        activeJobsSum system) := by
  unfold countActiveJobs activeJobsSum
  have hf := activeJobs_fold system.printers system.printers []
    (system.emit SysEvent.rdlock, 0) rfl
  simp only [List.length_nil, ← List.range_eq_range'] at hf
  simp only []
  rw [hf]
  simp only [emit_eq_appendTrace, appendTrace_appendTrace, zero_add]
  rfl

theorem appendTrace_shutdown_time (s : pappl_system_t) (es : List SysEvent) :
    (s.appendTrace es).shutdown_time = s.shutdown_time := rfl

theorem appendTrace_clean_time (s : pappl_system_t) (es : List SysEvent) :
    (s.appendTrace es).clean_time = s.clean_time := rfl

theorem activeJobsSum_congr (s s2 : pappl_system_t) (h : s2.printers = s.printers) :
    activeJobsSum s2 = activeJobsSum s := by
  unfold activeJobsSum
  rw [h]

/-- The shutdown step in closed form. -/
theorem handleShutdown_eq (inp : LoopInput) (system : pappl_system_t) :
    handleShutdown inp system =
      if system.shutdown_time ≠ 0 then
        if inp.timeShutdown - system.shutdown_time > 60 then LoopStep.exit system
        else if activeJobsSum system = 0 then
          LoopStep.exit (system.appendTrace (SysEvent.rdlock ::
            (printerLockEvents 0 system.printers.length ++ [SysEvent.unlock])))
        else if system.clean_time ≠ 0 ∧ inp.timeClean ≥ system.clean_time then
          LoopStep.next ((system.appendTrace (SysEvent.rdlock ::
            (printerLockEvents 0 system.printers.length ++ [SysEvent.unlock]))).emit
              SysEvent.cleanJobs)
        else
          LoopStep.next (system.appendTrace (SysEvent.rdlock ::
            (printerLockEvents 0 system.printers.length ++ [SysEvent.unlock])))
      else if system.clean_time ≠ 0 ∧ inp.timeClean ≥ system.clean_time then
        LoopStep.next (system.emit SysEvent.cleanJobs)
      else LoopStep.next system := by
  unfold handleShutdown
  simp only [countActiveJobs_eq, appendTrace_clean_time]

/-- Without a fatal `poll` error the loop body ends with the shutdown step, applied to a
system with the same shutdown time and printers. -/
theorem loopBody_eq (inp : LoopInput) (system : pappl_system_t)
    (hpoll : ¬ (inp.pollCount < 0 ∧ inp.pollErrno ≠ EINTR ∧ inp.pollErrno ≠ EAGAIN)) :
    ∃ s2 : pappl_system_t, loopBody inp system = handleShutdown inp s2 ∧
      s2.shutdown_time = system.shutdown_time ∧ s2.printers = system.printers := by
  unfold loopBody
  simp only [hpoll, if_false]
  refine ⟨_, rfl, ?_, ?_⟩
  · rw [(handleSave_fields _).1, (handleCollisions_fields _).1]
    split_ifs
    · rw [(acceptClients_fields _ _).1]; rfl
    · rfl
  · rw [(handleSave_fields _).2, (handleCollisions_fields _).2]
    split_ifs
    · rw [(acceptClients_fields _ _).2]; rfl
    · rfl

/-- Claim C15: in every iteration that reaches the shutdown step with a shutdown pending,
at most 60 seconds elapsed and the sum of the active-job counts equal to 0, the loop exits at
that step, the only effects of the step being the read lock, each printer lock in turn and
the unlock (no job clean-up); with a non-zero sum it does not exit at that step.  The same
holds for the whole loop body when `poll` reports no fatal error. -/
theorem shutdown_on_idle (inp : LoopInput) (system : pappl_system_t)
    (hpending : system.shutdown_time ≠ 0)
    (htime : inp.timeShutdown - system.shutdown_time ≤ 60) :
    (activeJobsSum system = 0 →
      handleShutdown inp system
        = LoopStep.exit (system.appendTrace (SysEvent.rdlock ::
            (printerLockEvents 0 system.printers.length ++ [SysEvent.unlock])))) ∧
    (activeJobsSum system ≠ 0 → (handleShutdown inp system).isExit = false) ∧
    (¬ (inp.pollCount < 0 ∧ inp.pollErrno ≠ EINTR ∧ inp.pollErrno ≠ EAGAIN) →
      ((loopBody inp system).isExit = true ↔ activeJobsSum system = 0)) := by
  have hnot : ¬ (inp.timeShutdown - system.shutdown_time > 60) := by omega
  refine ⟨?_, ?_, ?_⟩
  · intro h0
    rw [handleShutdown_eq]
    simp [hpending, hnot, h0]
  · intro h0
    rw [handleShutdown_eq]
    simp only [hpending, hnot, h0, ne_eq, not_false_eq_true, if_true, if_false]
    split_ifs <;> rfl
  · intro hpoll
    obtain ⟨s2, hbody, hst, hpr⟩ := loopBody_eq inp system hpoll
    have hsum := activeJobsSum_congr system s2 hpr
    rw [hbody, handleShutdown_eq, hst, hsum]
    simp only [hpending, hnot, ne_eq, not_false_eq_true, if_true, if_false]
    by_cases h0 : activeJobsSum system = 0
    · simp [h0, LoopStep.isExit]
    · simp only [h0, if_false, iff_false]
      split_ifs <;> simp [LoopStep.isExit]

/-- Claim C15 at a pending shutdown with 30 seconds elapsed.  With two printers and no
active job the step takes the read lock, visits both printers and exits, and so does the
whole loop body; with one printer holding an active job neither the step nor the loop body
exits. -/
theorem shutdown_on_idle_witness :
    activeJobsSum idleSystem = 0 ∧
    handleShutdown (idleInput 130) idleSystem
      = LoopStep.exit (idleSystem.appendTrace
          [SysEvent.rdlock, SysEvent.printerRdlock 0, SysEvent.printerUnlock 0,
            SysEvent.printerRdlock 1, SysEvent.printerUnlock 1, SysEvent.unlock]) ∧
    (loopBody (idleInput 130) idleSystem).isExit = true ∧
    activeJobsSum busySystem ≠ 0 ∧
    (handleShutdown (idleInput 130) busySystem).isExit = false ∧
    (loopBody (idleInput 130) busySystem).isExit = false :=
  have hidle : activeJobsSum idleSystem = 0 := by decide
  have hbusy : activeJobsSum busySystem ≠ 0 := by decide
  ⟨hidle,
    (shutdown_on_idle (idleInput 130) idleSystem (by decide) (by decide)).1 hidle,
    ((shutdown_on_idle (idleInput 130) idleSystem (by decide) (by decide)).2.2
      (by decide)).2 hidle,
    hbusy,
    (shutdown_on_idle (idleInput 130) busySystem (by decide) (by decide)).2.1 hbusy,
    Bool.eq_false_iff.mpr (fun h =>
      hbusy (((shutdown_on_idle (idleInput 130) busySystem (by decide) (by decide)).2.2
        (by decide)).1 h))⟩

/-- With a shutdown pending and active jobs, an iteration without a fatal `poll` error
leaves the loop exactly when more than 60 seconds have elapsed, and otherwise keeps the
shutdown time and the printers. -/
theorem loopBody_forced_shutdown (inp : LoopInput) (system : pappl_system_t)
    (hpoll : ¬ (inp.pollCount < 0 ∧ inp.pollErrno ≠ EINTR ∧ inp.pollErrno ≠ EAGAIN))
    (hpending : system.shutdown_time ≠ 0) (hjobs : activeJobsSum system ≠ 0) :
    (inp.timeShutdown - system.shutdown_time > 60 → ∃ s2, loopBody inp system = LoopStep.exit s2)
    ∧ (inp.timeShutdown - system.shutdown_time ≤ 60 →
        ∃ s2, loopBody inp system = LoopStep.next s2 ∧
          s2.shutdown_time = system.shutdown_time ∧ s2.printers = system.printers) := by
  obtain ⟨s2, hbody, hst, hpr⟩ := loopBody_eq inp system hpoll
  have hsum := activeJobsSum_congr system s2 hpr
  rw [hbody, handleShutdown_eq, hst, hsum]
  simp only [hpending, hjobs, ne_eq, not_false_eq_true, if_true, if_false]
  constructor
  · intro h
    exact ⟨_, by rw [if_pos h]⟩
  · intro h
    have hnot : ¬ (inp.timeShutdown - system.shutdown_time > 60) := by omega
    rw [if_neg hnot]
    split_ifs
    · exact ⟨_, rfl, hst, hpr⟩
    · exact ⟨_, rfl, hst, hpr⟩

/-- A run in which no iteration is past the 60 seconds does not leave the loop and keeps
the shutdown time and the active jobs. -/
theorem mainLoop_before_deadline (S : Int) (hS : S ≠ 0) (inputs : List LoopInput) :
    ∀ system : pappl_system_t, system.shutdown_time = S → activeJobsSum system ≠ 0 →
      (∀ inp ∈ inputs, inp.quiet) →
      (∀ inp ∈ inputs, ∀ s : pappl_system_t, s.shutdown_time = S → activeJobsSum s ≠ 0 →
        (inp.concurrent s).shutdown_time = S ∧ activeJobsSum (inp.concurrent s) ≠ 0) →
      (∀ inp ∈ inputs, inp.timeShutdown - S ≤ 60) →
      (mainLoop system false inputs).left = false ∧
      (mainLoop system false inputs).shutdown_system = false ∧
      (mainLoop system false inputs).system.shutdown_time = S ∧
      activeJobsSum (mainLoop system false inputs).system ≠ 0 := by
  induction inputs with
  | nil => intro system hs hj _ _ _; exact ⟨rfl, rfl, hs, hj⟩
  | cons inp rest ih =>
    intro system hs hj hq hc ht
    have hq0 := hq inp (List.mem_cons_self _ _)
    have hc0 := hc inp (List.mem_cons_self _ _) system hs hj
    have ht0 := ht inp (List.mem_cons_self _ _)
    obtain ⟨s2, hbody, hs2, hp2⟩ := (loopBody_forced_shutdown inp (inp.concurrent system) hq0.2
      (by rw [hc0.1]; exact hS) hc0.2).2 (by rw [hc0.1]; exact ht0)
    have hrec := ih s2 (by rw [hs2, hc0.1])
      (by rw [activeJobsSum_congr _ _ hp2]; exact hc0.2)
      (fun x hx => hq x (List.mem_cons_of_mem _ hx))
      (fun x hx => hc x (List.mem_cons_of_mem _ hx))
      (fun x hx => ht x (List.mem_cons_of_mem _ hx))
    unfold mainLoop
    simp only [hq0.1, Bool.false_eq_true, if_false, hbody]
    exact hrec

/-- Once an iteration past the 60 seconds follows iterations that are not, the loop is left
there, whatever is observed later. -/
theorem mainLoop_at_deadline (S : Int) (hS : S ≠ 0) (inp : LoopInput) (post : List LoopInput)
    (hinp : inp.timeShutdown - S > 60) (before : List LoopInput) :
    ∀ system : pappl_system_t, system.shutdown_time = S → activeJobsSum system ≠ 0 →
      (∀ x ∈ before ++ [inp], x.quiet) →
      (∀ x ∈ before ++ [inp], ∀ s : pappl_system_t, s.shutdown_time = S →
        activeJobsSum s ≠ 0 →
        (x.concurrent s).shutdown_time = S ∧ activeJobsSum (x.concurrent s) ≠ 0) →
      (∀ x ∈ before, x.timeShutdown - S ≤ 60) →
      (mainLoop system false (before ++ inp :: post)).left = true ∧
      mainLoop system false (before ++ inp :: post)
        = mainLoop system false (before ++ [inp]) := by
  induction before with
  | nil =>
    intro system hsys hj hquiet hconc _
    have hq0 := hquiet inp (by simp)
    have hc0 := hconc inp (by simp) system hsys hj
    obtain ⟨s2, hbody⟩ := (loopBody_forced_shutdown inp (inp.concurrent system) hq0.2
      (by rw [hc0.1]; exact hS) hc0.2).1 (by rw [hc0.1]; exact hinp)
    simp [mainLoop, hq0.1, hbody]
  | cons b rest ih =>
    intro system hsys hj hquiet hconc hbefore
    have hq0 := hquiet b (by simp)
    have hc0 := hconc b (by simp) system hsys hj
    have ht0 := hbefore b (List.mem_cons_self _ _)
    obtain ⟨s2, hbody, hs2, hp2⟩ := (loopBody_forced_shutdown b (b.concurrent system) hq0.2
      (by rw [hc0.1]; exact hS) hc0.2).2 (by rw [hc0.1]; exact ht0)
    have hrec := ih s2 (by rw [hs2, hc0.1])
      (by rw [activeJobsSum_congr _ _ hp2]; exact hc0.2)
      (fun x hx => hquiet x (by
        rcases List.mem_append.mp hx with h | h
        · exact List.mem_append_left _ (List.mem_cons_of_mem _ h)
        · exact List.mem_append_right _ h))
      (fun x hx => hconc x (by
        rcases List.mem_append.mp hx with h | h
        · exact List.mem_append_left _ (List.mem_cons_of_mem _ h)
        · exact List.mem_append_right _ h))
      (fun x hx => hbefore x (List.mem_cons_of_mem _ hx))
    simp only [List.cons_append, mainLoop, hq0.1, Bool.false_eq_true, if_false, hbody]
    exact hrec

/-- Claim C14, as stated, fails: with a shutdown requested at time 100, one active job and
a clock reading of 160 (60 seconds elapsed) the iteration does not leave the loop. -/
theorem forced_shutdown_not_at_sixty :
    (60 : Int) ≤ (idleInput 160).timeShutdown - busySystem.shutdown_time ∧
    activeJobsSum busySystem ≠ 0 ∧
    ¬ ((mainLoop busySystem false [idleInput 160]).left = true) := by
  decide

/-- Claim C14, amended: for every shutdown request time `S` and every run in which the sum
of the active-job counts is never 0 and no signal or fatal `poll` error occurs, the loop
does not exit in any iteration whose clock reading `t` satisfies `t - S <= 60`, and exits in
the first iteration with `t - S > 60`: after the iterations before it the loop is still
running, with it the loop has been left, and later observations play no part. -/
theorem forced_shutdown_after_sixty (S : Int) (hS : S ≠ 0) (system : pappl_system_t)
    (before : List LoopInput) (inp : LoopInput) (later : List LoopInput)
    (hsys : system.shutdown_time = S) (hjobs : activeJobsSum system ≠ 0)
    (hquiet : ∀ x ∈ before ++ [inp], x.quiet)
    (hconc : ∀ x ∈ before ++ [inp], ∀ s : pappl_system_t, s.shutdown_time = S →
      activeJobsSum s ≠ 0 →
      (x.concurrent s).shutdown_time = S ∧ activeJobsSum (x.concurrent s) ≠ 0)
    (hbefore : ∀ x ∈ before, x.timeShutdown - S ≤ 60)
    (hinp : inp.timeShutdown - S > 60) :
    (mainLoop system false before).left = false ∧
    (mainLoop system false (before ++ inp :: later)).left = true ∧
    mainLoop system false (before ++ inp :: later) = mainLoop system false (before ++ [inp]) :=
  ⟨(mainLoop_before_deadline S hS before system hsys hjobs
      (fun x hx => hquiet x (List.mem_append_left _ hx))
      (fun x hx => hconc x (List.mem_append_left _ hx)) hbefore).1,
    mainLoop_at_deadline S hS inp later hinp before system hsys hjobs hquiet hconc hbefore⟩

/-- A shutdown requested at time 100 with one active job: the loop is still running after
the readings 130 and 160 and is left at the reading 161. -/
theorem forced_shutdown_after_sixty_witness :
    (mainLoop busySystem false [idleInput 130, idleInput 160]).left = false ∧
    (mainLoop busySystem false ([idleInput 130, idleInput 160] ++ idleInput 161 ::
      [idleInput 162])).left = true := by
  have h := forced_shutdown_after_sixty 100 (by decide) busySystem
    [idleInput 130, idleInput 160] (idleInput 161) [idleInput 162] rfl (by decide)
    (by intro x hx; simp at hx; rcases hx with rfl | rfl | rfl <;> exact ⟨rfl, by decide⟩)
    (by intro x hx s hs hj; simp at hx
        rcases hx with rfl | rfl | rfl <;> exact ⟨hs, hj⟩)
    (by intro x hx; simp at hx; rcases hx with rfl | rfl <;> decide)
    (by decide)
  exact ⟨h.1, h.2.1⟩

/-! ## DNS-SD collisions -/

theorem printerRegistrations_under (want m : LockMode) (ps : List pappl_printer_t) :
    ∀ k : Nat, lockAfter m (printerRegistrations k ps) = m ∧
      (m = want → registrationsUnder want m (printerRegistrations k ps) = true) ∧
      SysEvent.wrlock ∉ printerRegistrations k ps := by
  induction ps with
  | nil => intro k; exact ⟨rfl, fun _ => rfl, by simp [printerRegistrations]⟩
  | cons p rest ih =>
    intro k
    obtain ⟨h1, h2, h3⟩ := ih (k + 1)
    unfold printerRegistrations
    by_cases hp : p.dns_sd_collision = true
    · simp only [hp, if_true, List.singleton_append, lockAfter, LockMode.step,
        registrationsUnder, isRegistration, Bool.and_eq_true, decide_eq_true_eq]
      refine ⟨h1, fun hm => ⟨hm, h2 hm⟩, ?_⟩
      simp only [List.mem_cons, not_or]
      exact ⟨by simp, h3⟩
    · simp only [hp, if_false, List.nil_append, Bool.false_eq_true]
      exact ⟨h1, h2, h3⟩

theorem lockAfter_append (a b : List SysEvent) : ∀ m : LockMode,
    lockAfter m (a ++ b) = lockAfter (lockAfter m a) b := by
  induction a with
  | nil => intro m; rfl
  | cons e rest ih => intro m; exact ih (m.step e)

theorem registrationsUnder_append (want : LockMode) (a b : List SysEvent) : ∀ m : LockMode,
    registrationsUnder want m (a ++ b)
      = (registrationsUnder want m a && registrationsUnder want (lockAfter m a) b) := by
  induction a with
  | nil => intro m; simp [registrationsUnder, lockAfter]
  | cons e rest ih =>
    intro m
    show ((if isRegistration e = true then decide (m = want) else true) &&
        registrationsUnder want (m.step e) (rest ++ b)) = _
    rw [ih (m.step e)]
    simp only [registrationsUnder, lockAfter, Bool.and_assoc]

theorem registrationEvents_printer (k : Nat) (ps : List pappl_printer_t) :
    ∀ e ∈ printerRegistrations k ps, ∃ i, e = SysEvent.registerPrinterDNSSD i := by
  induction ps generalizing k with
  | nil => intro e he; simp [printerRegistrations] at he
  | cons p rest ih =>
    intro e he
    unfold printerRegistrations at he
    rcases List.mem_append.mp he with h | h
    · split_ifs at h
      · exact ⟨k, by simpa using h⟩
      · simp at h
    · exact ih (k + 1) e h

theorem registerPrinter_mem (ps : List pappl_printer_t) : ∀ (k i : Nat),
    (SysEvent.registerPrinterDNSSD i ∈ printerRegistrations k ps ↔
      k ≤ i ∧ ∃ p, ps[i - k]? = some p ∧ p.dns_sd_collision = true) := by
  induction ps with
  | nil => intro k i; simp [printerRegistrations]
  | cons p rest ih =>
    intro k i
    unfold printerRegistrations
    rw [List.mem_append, ih (k + 1) i]
    constructor
    · rintro (h | ⟨hle, q, hq, hc⟩)
      · by_cases hp : p.dns_sd_collision = true
        · simp only [hp, if_true, List.mem_singleton, SysEvent.registerPrinterDNSSD.injEq] at h
          subst h
          exact ⟨le_refl _, p, by simp, hp⟩
        · simp [hp] at h
      · refine ⟨by omega, q, ?_, hc⟩
        have : i - k = (i - (k + 1)) + 1 := by omega
        rw [this, List.getElem?_cons_succ]
        exact hq
    · rintro ⟨hle, q, hq, hc⟩
      by_cases hik : i = k
      · subst hik
        simp only [Nat.sub_self, List.getElem?_cons_zero, Option.some.injEq] at hq
        subst hq
        left
        simp [hc]
      · right
        refine ⟨by omega, q, ?_, hc⟩
        have : i - k = (i - (k + 1)) + 1 := by omega
        rw [this, List.getElem?_cons_succ] at hq
        exact hq

/-- Claim C17, as stated, fails: on a system with a collision of the system name and of
its printer the re-registrations happen after `pthread_rwlock_rdlock`, so not every
re-registration happens while the exclusive lock is held. -/
theorem collision_registration_not_under_write_lock :
    collidingSystem.dns_sd_any_collision = true ∧
    (handleCollisions collidingSystem).trace
      = [SysEvent.rdlock, SysEvent.registerSystemDNSSD, SysEvent.registerPrinterDNSSD 0,
          SysEvent.unlock] ∧
    ¬ (registrationsUnder LockMode.exclusive LockMode.unlocked
        (handleCollisions collidingSystem).trace = true) := by
  decide

/-- Claim C17, amended: in every iteration in which a collision is signalled, the collision
step takes the shared (read) lock of the system, re-registers the system name when its
collision flag is set and each colliding printer name in printer order, and releases the
lock; every re-registration happens while the shared lock is held, the exclusive lock is
never taken, and after the step the collision-signalled flag is false. -/
theorem collision_registration_under_read_lock (system : pappl_system_t)
    (hany : system.dns_sd_any_collision = true) :
    ∃ step : List SysEvent,
      handleCollisions system
        = { system.appendTrace step with dns_sd_any_collision := false } ∧
      step = SysEvent.rdlock ::
        ((if system.dns_sd_collision then [SysEvent.registerSystemDNSSD] else [])
          ++ printerRegistrations 0 system.printers ++ [SysEvent.unlock]) ∧
      registrationsUnder LockMode.shared LockMode.unlocked step = true ∧
      SysEvent.wrlock ∉ step ∧
      lockAfter LockMode.unlocked step = LockMode.unlocked ∧
      (SysEvent.registerSystemDNSSD ∈ step ↔ system.dns_sd_collision = true) ∧
      (∀ i, SysEvent.registerPrinterDNSSD i ∈ step ↔
        ∃ p, system.printers[i]? = some p ∧ p.dns_sd_collision = true) ∧
      (handleCollisions system).dns_sd_any_collision = false := by
  obtain ⟨hl, hr, hw⟩ := printerRegistrations_under LockMode.shared LockMode.shared
    system.printers 0
  have hr2 := hr rfl
  refine ⟨_, ?_, rfl, ?_, ?_, ?_, ?_, ?_, ?_⟩
  · rw [handleCollisions_eq, if_pos hany]
  · rcases Bool.eq_false_or_eq_true system.dns_sd_collision with hc | hc
    · simp [hc, registrationsUnder, isRegistration, LockMode.step,
        registrationsUnder_append, hr2, hl]
    · simp [hc, registrationsUnder, isRegistration, LockMode.step,
        registrationsUnder_append, hr2, hl]
  · rcases Bool.eq_false_or_eq_true system.dns_sd_collision with hc | hc
    · simp [hc, hw]
    · simp [hc, hw]
  · rcases Bool.eq_false_or_eq_true system.dns_sd_collision with hc | hc
    · simp [hc, lockAfter, LockMode.step, lockAfter_append, hl]
    · simp [hc, lockAfter, LockMode.step, lockAfter_append, hl]
  · have hnot : SysEvent.registerSystemDNSSD ∉ printerRegistrations 0 system.printers := by
      intro hmem
      have := registrationEvents_printer 0 system.printers _ hmem
      simp at this
    rcases Bool.eq_false_or_eq_true system.dns_sd_collision with hc | hc
    · simp [hc]
    · simp [hc, hnot]
  · intro i
    have hmem := registerPrinter_mem system.printers 0 i
    simp only [Nat.zero_le, true_and, Nat.sub_zero] at hmem
    rw [← hmem]
    rcases Bool.eq_false_or_eq_true system.dns_sd_collision with hc | hc
    · simp [hc]
    · simp [hc]
  · rw [handleCollisions_eq, if_pos hany]

/-- On `collidingSystem` the step is read lock, both re-registrations, unlock. -/
theorem collision_registration_under_read_lock_witness :
    collidingSystem.dns_sd_any_collision = true ∧
    (handleCollisions collidingSystem).dns_sd_any_collision = false := by
  obtain ⟨_, _, _, _, _, _, _, _, h⟩ :=
    collision_registration_under_read_lock collidingSystem (by decide)
  exact ⟨by decide, h⟩

/-! ## Termination of the write loop -/

theorem writeLoop_done (bytes total : Nat) (h : ¬ total < bytes) (l : List IoResult) :
    writeLoop bytes total l = some (toSsize total) := by
  cases l <;> simp [writeLoop, h]

theorem okCount_append (a b : List IoResult) : okCount (a ++ b) = okCount a + okCount b := by
  induction a with
  | nil => simp [okCount]
  | cons o rest ih =>
    cases o with
    | ok c =>
      show okCount (rest ++ b) + 1 = okCount rest + 1 + okCount b
      rw [ih]; omega
    | error e =>
      show okCount (rest ++ b) = okCount rest + okCount b
      exact ih

/-- Once the outcomes hold a non-retryable failure or as many successful writes, of at least
one byte each, as bytes are missing, the loop has returned and ignores what follows. -/
theorem writeLoop_returns (bytes : Nat) (outs : List IoResult) :
    ∀ total : Nat, (∀ c, IoResult.ok c ∈ outs → 1 ≤ c) →
      (bytes ≤ total + okCount outs ∨ ∃ o ∈ outs, o.fatal = true) →
      ∃ r, writeLoop bytes total outs = some r ∧
        ∀ more, writeLoop bytes total (outs ++ more) = some r := by
  induction outs with
  | nil =>
    intro total _ h
    have hle : ¬ total < bytes := by
      rcases h with h | ⟨o, ho, _⟩
      · simp [okCount] at h; omega
      · simp at ho
    exact ⟨_, writeLoop_done bytes total hle [], fun more => writeLoop_done bytes total hle _⟩
  | cons o rest ih =>
    intro total hpos h
    by_cases hlt : total < bytes
    · cases o with
      | ok c =>
        have hc : 1 ≤ c := hpos c (List.mem_cons_self _ _)
        have h2 : bytes ≤ (total + c) + okCount rest ∨ ∃ o ∈ rest, o.fatal = true := by
          rcases h with h | ⟨o, ho, hf⟩
          · left; simp only [okCount] at h; omega
          · rcases List.mem_cons.mp ho with rfl | ho
            · simp [IoResult.fatal] at hf
            · exact Or.inr ⟨o, ho, hf⟩
        obtain ⟨r, hr, hmore⟩ := ih (total + c)
          (fun c hc => hpos c (List.mem_cons_of_mem _ hc)) h2
        exact ⟨r, by simp [writeLoop, hlt, hr], fun more => by
          simp [writeLoop, hlt, hmore more]⟩
      | error e =>
        by_cases he : e = EINTR ∨ e = EAGAIN
        · have h2 : bytes ≤ total + okCount rest ∨ ∃ o ∈ rest, o.fatal = true := by
            rcases h with h | ⟨o, ho, hf⟩
            · left; simpa [okCount] using h
            · rcases List.mem_cons.mp ho with rfl | ho
              · rw [fatal_error_of_retry e he] at hf; exact absurd hf (by decide)
              · exact Or.inr ⟨o, ho, hf⟩
          obtain ⟨r, hr, hmore⟩ := ih total
            (fun c hc => hpos c (List.mem_cons_of_mem _ hc)) h2
          exact ⟨r, by simp [writeLoop, hlt, he, hr], fun more => by
            simp [writeLoop, hlt, he, hmore more]⟩
        · exact ⟨-1, by simp [writeLoop, hlt, he], fun more => by
            simp [writeLoop, hlt, he]⟩
    · exact ⟨_, writeLoop_done bytes total hlt _, fun more => writeLoop_done bytes total hlt _⟩

theorem okCount_of_all_ok (l : List IoResult)
    (h : ∀ o ∈ l, o.retryable = false ∧ o.fatal = false) : okCount l = l.length := by
  induction l with
  | nil => rfl
  | cons o rest ih =>
    have ho := h o (List.mem_cons_self _ _)
    have hrest := ih (fun x hx => h x (List.mem_cons_of_mem _ hx))
    cases o with
    | ok c => simp [okCount, hrest]
    | error e =>
      simp only [IoResult.retryable, IoResult.fatal, Bool.not_eq_false'] at ho
      rw [ho.1] at ho
      exact absurd ho.2 (by decide)

theorem writeLoop_stuck (bytes : Nat) (hpos : 0 < bytes) (k : Nat) :
    writeLoop bytes 0 (List.replicate k (IoResult.ok 0)) = none := by
  induction k with
  | zero => simp [writeLoop, hpos]
  | succ k ih => simp [List.replicate_succ, writeLoop, hpos, ih]

/-- Claim C19: for every requested length `n` and every outcome sequence of the underlying
`write` in which each successful call transfers at least 1 byte, `papplDeviceWrite` has
returned once `n` successful calls have been made (what follows is not consumed); when in
addition only the first `B` outcomes can be EINTR/EAGAIN failures, it returns within the
first `B + n` outcomes; with `n = 0` it returns 0 without any outcome of `write`; and an
underlying `write` that keeps returning 0 keeps the loop running for `n > 0`. -/
theorem papplDeviceWrite_terminates (device : pappl_device_t) (n : Nat) (bulk : BulkResult)
    (hfd : 0 ≤ device.fd) :
    (∀ outs : List IoResult, (∀ c, IoResult.ok c ∈ outs → 1 ≤ c) → n ≤ okCount outs →
      ∃ r, papplDeviceWrite (some device) n outs bulk = some r ∧
        ∀ more, papplDeviceWrite (some device) n (outs ++ more) bulk = some r) ∧
    (∀ (s : Nat → IoResult) (B : Nat), (∀ i c, s i = IoResult.ok c → 1 ≤ c) →
      (∀ i, B ≤ i → (s i).retryable = false) →
      ∃ r, papplDeviceWrite (some device) n ((List.range (B + n)).map s) bulk = some r) ∧
    (n = 0 → papplDeviceWrite (some device) n [] bulk = some 0) ∧
    (0 < n → ∀ k, papplDeviceWrite (some device) n (List.replicate k (IoResult.ok 0)) bulk
      = none) := by
  have hw : ∀ outs, papplDeviceWrite (some device) n outs bulk = writeLoop n 0 outs := by
    intro outs; simp [papplDeviceWrite, hfd]
  refine ⟨?_, ?_, ?_, ?_⟩
  · intro outs hpos hcount
    obtain ⟨r, hr, hmore⟩ := writeLoop_returns n outs 0 hpos (Or.inl (by omega))
    exact ⟨r, by rw [hw, hr], fun more => by rw [hw, hmore more]⟩
  · intro s B hpos hfin
    have hpos2 : ∀ c, IoResult.ok c ∈ (List.range (B + n)).map s → 1 ≤ c := by
      intro c hc
      obtain ⟨i, _, hi⟩ := List.mem_map.mp hc
      exact hpos i c hi
    by_cases hfatal : ∃ o ∈ (List.range (B + n)).map s, o.fatal = true
    · obtain ⟨r, hr, _⟩ := writeLoop_returns n _ 0 hpos2 (Or.inr hfatal)
      exact ⟨r, by rw [hw, hr]⟩
    · push_neg at hfatal
      have hsplit : (List.range (B + n)).map s
          = (List.range B).map s ++ (List.range n).map (fun i => s (B + i)) := by
        rw [List.range_add, List.map_append, List.map_map]
        rfl
      have htail : okCount ((List.range n).map (fun i => s (B + i))) = n := by
        rw [okCount_of_all_ok]
        · simp
        · intro o ho
          obtain ⟨i, _, hi⟩ := List.mem_map.mp ho
          refine ⟨by rw [← hi]; exact hfin (B + i) (by omega), ?_⟩
          have := hfatal o (by rw [hsplit]; exact List.mem_append_right _ ho)
          simpa using this
      obtain ⟨r, hr, _⟩ := writeLoop_returns n _ 0 hpos2
        (Or.inl (by rw [hsplit, okCount_append, htail]; omega))
      exact ⟨r, by rw [hw, hr]⟩
  · intro h0
    subst h0
    rw [hw]
    rfl
  · intro hn k
    rw [hw]
    exact writeLoop_stuck n hn k

/-- A write of 3 bytes whose underlying calls send one byte each, after two interrupted
calls, has returned 3 once three successful calls have been made. -/
theorem papplDeviceWrite_terminates_witness :
    3 ≤ okCount [IoResult.error EINTR, IoResult.ok 1, IoResult.error EAGAIN, IoResult.ok 1,
      IoResult.ok 1] ∧
    ∃ r, papplDeviceWrite (some { pappl_device_t.zeroed with fd := 3 }) 3
      [IoResult.error EINTR, IoResult.ok 1, IoResult.error EAGAIN, IoResult.ok 1,
        IoResult.ok 1] { status := 0, count := 0 } = some r ∧
      ∀ more, papplDeviceWrite (some { pappl_device_t.zeroed with fd := 3 }) 3
        ([IoResult.error EINTR, IoResult.ok 1, IoResult.error EAGAIN, IoResult.ok 1,
          IoResult.ok 1] ++ more) { status := 0, count := 0 } = some r :=
  ⟨by decide, (papplDeviceWrite_terminates { pappl_device_t.zeroed with fd := 3 } 3
    { status := 0, count := 0 } (by decide)).1 _
    (by intro c hc; simp at hc; omega) (by decide)⟩

/-! ## Log target of `papplSystemCreate` -/

/-- The log descriptor chosen for a log file name. -/
theorem papplSystemCreate_log_spec (env : CreateEnv) (tmpdir : List Char)
    (system : pappl_system_t) (path : List Char)
    (hpath : path = match system.logfile with
      | some f => f
      | none => snprintf 256 (tmpdir ++ "/pappl".toList ++ fmt_d (toInt32 env.uid)
          ++ ".log".toList)) :
    (papplSystemCreate_log env tmpdir system).logfile = some path ∧
    (papplSystemCreate_log env tmpdir system).logfd =
      (if path = "syslog".toList then -1
       else if path = "-".toList then 2
       else if env.openLog path < 0 then 2 else env.openLog path) := by
  unfold papplSystemCreate_log
  simp only [← hpath, pappl_system_t.emit]
  split_ifs <;> exact ⟨rfl, rfl⟩

theorem papplSystemCreate_tmpdir_eq (env : CreateEnv) :
    papplSystemCreate_tmpdir env =
      (match env.TMPDIR with
       | some t => t
       | none => if env.apple then "/private/tmp".toList else "/tmp".toList) := rfl

theorem papplSystemCreate_auth_fields (system : pappl_system_t) :
    (papplSystemCreate_auth system).logfile = system.logfile ∧
    (papplSystemCreate_auth system).logfd = system.logfd := by
  unfold papplSystemCreate_auth
  split_ifs <;> exact ⟨rfl, rfl⟩

/-- The log file and descriptor of a system returned by `papplSystemCreate`. -/
theorem papplSystemCreate_logfd (env : CreateEnv) (options : Nat)
    (uuid name hostname : Option (List Char)) (port : Int)
    (subtypes spooldir logfile : Option (List Char)) (loglevel : pappl_loglevel_t)
    (auth_service : Option (List Char)) (tls_only : Bool) (system : pappl_system_t)
    (h : (papplSystemCreate env options uuid name hostname port subtypes spooldir logfile
      loglevel auth_service tls_only).1 = some system) :
    system.logfile = some (logfile.getD (defaultLogfile env)) ∧
    system.logfd =
      (if logfile.getD (defaultLogfile env) = "syslog".toList then -1
       else if logfile.getD (defaultLogfile env) = "-".toList then 2
       else if env.openLog (logfile.getD (defaultLogfile env)) < 0 then 2
       else env.openLog (logfile.getD (defaultLogfile env))) := by
  unfold papplSystemCreate at h
  cases name with
  | none => simp at h
  | some nm =>
    simp only at h
    by_cases hc : env.callocOk = false
    · simp [hc] at h
    · simp only [hc, if_false] at h
      generalize hs0 : papplSystemCreate_init env options uuid nm hostname port subtypes
        spooldir logfile loglevel auth_service tls_only = s0 at h
      have e0 : s0.logfile = logfile := by subst hs0; rfl
      have e1 : (papplSystemCreate_hostname env s0).logfile = logfile := e0
      generalize papplSystemCreate_hostname env s0 = s1 at h e1
      have e2 : (papplSystemCreate_uuid env s1).1.logfile = logfile := by
        unfold papplSystemCreate_uuid
        split <;> exact e1
      generalize papplSystemCreate_uuid env s1 = r at h e2
      cases hd : papplSystemCreate_directory env r.1 with
      | none => simp [hd] at h
      | some s3 =>
        simp only [hd, Option.some.injEq] at h
        have e3 : s3.logfile = logfile := by
          unfold papplSystemCreate_directory at hd
          simp only at hd
          split_ifs at hd
          simp only [Option.some.injEq] at hd
          subst hd
          exact e2
        have e4 : (papplSystemCreate_loglevel s3).logfile = logfile := by
          unfold papplSystemCreate_loglevel
          split_ifs <;> exact e3
        have hpath : logfile.getD (defaultLogfile env) =
            match (papplSystemCreate_loglevel s3).logfile with
            | some f => f
            | none => snprintf 256 (papplSystemCreate_tmpdir env ++ "/pappl".toList
                ++ fmt_d (toInt32 env.uid) ++ ".log".toList) := by
          rw [e4]
          cases logfile <;> rfl
        have e5 := papplSystemCreate_log_spec env (papplSystemCreate_tmpdir env)
          (papplSystemCreate_loglevel s3) _ hpath
        simp at h
        subst h
        rw [(papplSystemCreate_auth_fields _).1, (papplSystemCreate_auth_fields _).2]
        exact e5

/-- Claim C16, as stated, fails: on an Apple system without `TMPDIR` the log file resolved
when none is given is `/private/tmp/pappl1000.log`, not `/tmp/pappl1000.log`; and when
`open` of the log file `/var/log/pappl.log` succeeds with descriptor 2 the log descriptor
is 2 although the name is not `-` and the open did not fail. -/
theorem log_target_counterexamples :
    ¬ ((papplSystemCreate (createEnv true 7) 0 (some "u".toList) (some "sys".toList) none 0
          none none none pappl_loglevel_t.INFO none false).1.map (fun s => s.logfile)
        = some (some "/tmp/pappl1000.log".toList)) ∧
    ¬ ((papplSystemCreate (createEnv false 2) 0 (some "u".toList) (some "sys".toList) none 0
          none none (some "/var/log/pappl.log".toList) pappl_loglevel_t.INFO none
          false).1.map (fun s => s.logfd) = some 2 →
        ("/var/log/pappl.log".toList = "-".toList ∨
          (createEnv false 2).openLog "/var/log/pappl.log".toList < 0)) := by
  decide

/-- Claim C16, amended: for every log-file argument the name resolved is the argument or,
when none is given, `<TMPDIR, else /private/tmp on Apple systems, else /tmp>/pappl<uid>.log`
(user id printed with `%d`, cut to the 256-byte buffer); the log descriptor is -1 iff that
name is exactly `syslog`; it is 2 iff the name is not `syslog` and either the name is
exactly `-`, or the open of the named path fails, or that open returns descriptor 2;
otherwise it is the descriptor returned by the open of that path. -/
theorem log_target_resolution (env : CreateEnv) (options : Nat)
    (uuid name hostname : Option (List Char)) (port : Int)
    (subtypes spooldir logfile : Option (List Char)) (loglevel : pappl_loglevel_t)
    (auth_service : Option (List Char)) (tls_only : Bool) (system : pappl_system_t)
    (h : (papplSystemCreate env options uuid name hostname port subtypes spooldir logfile
      loglevel auth_service tls_only).1 = some system) :
    system.logfile = some (logfile.getD (defaultLogfile env)) ∧
    (system.logfd = -1 ↔ logfile.getD (defaultLogfile env) = "syslog".toList) ∧
    (system.logfd = 2 ↔ logfile.getD (defaultLogfile env) ≠ "syslog".toList ∧
      (logfile.getD (defaultLogfile env) = "-".toList ∨
        env.openLog (logfile.getD (defaultLogfile env)) < 0 ∨
        env.openLog (logfile.getD (defaultLogfile env)) = 2)) ∧
    (logfile.getD (defaultLogfile env) ≠ "syslog".toList →
      logfile.getD (defaultLogfile env) ≠ "-".toList →
      0 ≤ env.openLog (logfile.getD (defaultLogfile env)) →
      system.logfd = env.openLog (logfile.getD (defaultLogfile env))) := by
  obtain ⟨hfile, hfd⟩ := papplSystemCreate_logfd env options uuid name hostname port subtypes
    spooldir logfile loglevel auth_service tls_only system h
  refine ⟨hfile, ?_, ?_, ?_⟩
  · rw [hfd]
    split_ifs <;> simp_all
    omega
  · rw [hfd]
    split_ifs <;> simp_all
  · intro h1 h2 h3
    have : ¬ env.openLog (logfile.getD (defaultLogfile env)) < 0 := by omega
    rw [hfd, if_neg h1, if_neg h2, if_neg this]

/-- The log file `-` on a system created for user 1000: the descriptor is 2. -/
theorem log_target_resolution_witness :
    ∃ system, (papplSystemCreate (createEnv false 7) 0 (some "u".toList) (some "sys".toList)
        none 0 none none (some "-".toList) pappl_loglevel_t.INFO none false).1 = some system ∧
      system.logfile = some "-".toList ∧ system.logfd = 2 := by
  cases hs : (papplSystemCreate (createEnv false 7) 0 (some "u".toList) (some "sys".toList)
      none 0 none none (some "-".toList) pappl_loglevel_t.INFO none false).1 with
  | none =>
    have : ((papplSystemCreate (createEnv false 7) 0 (some "u".toList) (some "sys".toList)
      none 0 none none (some "-".toList) pappl_loglevel_t.INFO none false).1).isSome = true := by
      decide
    rw [hs] at this
    exact absurd this (by decide)
  | some system =>
    have h := log_target_resolution (createEnv false 7) 0 (some "u".toList)
      (some "sys".toList) none 0 none none (some "-".toList) pappl_loglevel_t.INFO none false
      system hs
    exact ⟨system, rfl, h.1, h.2.2.1.mpr ⟨by decide, Or.inl rfl⟩⟩

/-! ## Make and model of the Device ID -/

theorem findSub_some (key : List Char) (s : List Char) : ∀ i : Nat, findSub key s = some i →
    i + key.length ≤ s.length ∧ s = s.take i ++ key ++ s.drop (i + key.length) ∧
    ∀ pre2 post2, s = pre2 ++ key ++ post2 → i ≤ pre2.length := by
  induction s with
  | nil =>
    intro i h
    unfold findSub at h
    split_ifs at h with hk
    simp only [Option.some.injEq] at h
    subst h; subst hk
    exact ⟨by simp, by simp, fun _ _ _ => Nat.zero_le _⟩
  | cons c cs ih =>
    intro i h
    unfold findSub at h
    by_cases hp : key.isPrefixOf (c :: cs) = true
    · simp only [hp, if_true, Option.some.injEq] at h
      subst h
      rw [ List.isPrefixOf_iff_prefix] at hp
      obtain ⟨t, ht⟩ := hp
      refine ⟨?_, ?_, fun _ _ _ => Nat.zero_le _⟩
      · rw [← ht]; simp
      · simp only [List.take_zero, List.nil_append, Nat.zero_add]
        rw [← ht]; simp
    · simp only [hp, Bool.false_eq_true, if_false, Option.map_eq_some'] at h
      obtain ⟨j, hj, rfl⟩ := h
      obtain ⟨h1, h2, h3⟩ := ih j hj
      refine ⟨by simp; omega, ?_, ?_⟩
      · have : j + 1 + key.length = (j + key.length) + 1 := by omega
        rw [this, List.take_succ_cons, List.drop_succ_cons, List.cons_append, List.cons_append,
          ← h2]
      · intro pre2 post2 hs
        cases pre2 with
        | nil =>
          exfalso
          apply hp
          rw [ List.isPrefixOf_iff_prefix]
          exact ⟨post2, by simpa using hs.symm⟩
        | cons d pre3 =>
          simp only [List.cons_append, List.cons.injEq] at hs
          have := h3 pre3 post2 hs.2
          simp; omega

theorem findSub_none (key : List Char) (s : List Char) : findSub key s = none →
    ¬ occursIn key s := by
  induction s with
  | nil =>
    intro h
    unfold findSub at h
    split_ifs at h with hk
    rintro ⟨pre, post, hs⟩
    apply hk
    have := congrArg List.length hs
    simp at this
    exact List.length_eq_zero.mp (by omega)
  | cons c cs ih =>
    intro h
    unfold findSub at h
    by_cases hp : key.isPrefixOf (c :: cs) = true
    · simp [hp] at h
    · simp only [hp, Bool.false_eq_true, if_false, Option.map_eq_none'] at h
      rintro ⟨pre, post, hs⟩
      cases pre with
      | nil =>
        apply hp
        rw [ List.isPrefixOf_iff_prefix]
        exact ⟨post, by simpa using hs.symm⟩
      | cons d pre3 =>
        simp only [List.cons_append, List.cons.injEq] at hs
        exact ih h ⟨pre3, post, hs.2⟩

/-- The search finds the first occurrence, and what follows it is `post`. -/
theorem findSub_firstOccurrence (key s pre post : List Char)
    (h : firstOccurrence key s pre post) :
    findSub key s = some pre.length ∧ s.drop (pre.length + key.length) = post := by
  obtain ⟨hs, hmin⟩ := h
  have hdrop : s.drop (pre.length + key.length) = post := by
    rw [hs, List.append_assoc, List.drop_append, List.drop_left']
    rfl
  refine ⟨?_, hdrop⟩
  cases hf : findSub key s with
  | none => exact absurd ⟨pre, post, hs⟩ (findSub_none key s hf)
  | some i =>
    obtain ⟨h1, h2, h3⟩ := findSub_some key s i hf
    have hle := h3 pre post hs
    have hge := hmin (s.take i) (s.drop (i + key.length)) h2
    simp only [List.length_take] at hge
    congr 1
    omega

theorem takeWhile_drop_comm (f : Char → Bool) (l : List Char) : ∀ p : Nat,
    p ≤ (l.takeWhile f).length → (l.drop p).takeWhile f = (l.takeWhile f).drop p := by
  induction l with
  | nil => intro p _; simp
  | cons x xs ih =>
    intro p hp
    cases p with
    | zero => rfl
    | succ p =>
      by_cases hx : f x = true
      · simp only [List.takeWhile_cons, hx, if_true, List.length_cons] at hp ⊢
        simp only [List.drop_succ_cons]
        exact ih p (by omega)
      · simp [List.takeWhile_cons, hx] at hp

theorem cstr_eq_drop (buf : List Char) (p : Nat) (hp : p ≤ (cstr buf 0).length) :
    cstr buf p = (cstr buf 0).drop p := by
  unfold cstr at hp ⊢
  simp only [List.drop_zero] at hp ⊢
  exact takeWhile_drop_comm _ buf p hp

theorem strstr_zero (buf key : List Char) :
    strstr buf 0 key = findSub key (cstr buf 0) := by
  unfold strstr
  cases findSub key (cstr buf 0) <;> simp

/-- The text after the first occurrence of a key, up to the next `;`, read from the
buffer at the pointer the search yields. -/
theorem field_after_key (buf key pre post : List Char)
    (h : firstOccurrence key (cstr buf 0) pre post) :
    strstr buf 0 key = some pre.length ∧
    upToSemicolon (cstr buf (pre.length + key.length)) = upToSemicolon post := by
  obtain ⟨hfind, hdrop⟩ := findSub_firstOccurrence key (cstr buf 0) pre post h
  refine ⟨by rw [strstr_zero, hfind], ?_⟩
  have hlen : pre.length + key.length ≤ (cstr buf 0).length := by
    rw [h.1]; simp
  rw [cstr_eq_drop buf _ hlen, hdrop]

theorem findChar_some (c : Char) (s : List Char) : ∀ k : Nat, findChar c s = some k →
    s[k]? = some c := by
  induction s with
  | nil => intro k h; simp [findChar] at h
  | cons x xs ih =>
    intro k h
    unfold findChar at h
    by_cases hx : x = c
    · simp only [hx, if_true, Option.some.injEq] at h
      subst h; simp [hx]
    · simp only [hx, if_false, Option.map_eq_some'] at h
      obtain ⟨j, hj, rfl⟩ := h
      simpa using ih j hj

theorem findChar_none (c : Char) (s : List Char) : findChar c s = none → ∀ x ∈ s, x ≠ c := by
  induction s with
  | nil => intro _ x hx; simp at hx
  | cons y ys ih =>
    intro h
    unfold findChar at h
    by_cases hy : y = c
    · simp [hy] at h
    · simp only [hy, if_false, Option.map_eq_none'] at h
      intro x hx
      rcases List.mem_cons.mp hx with rfl | hx
      · exact hy
      · exact ih h x hx

theorem takeWhile_getElem (f : Char → Bool) (l : List Char) : ∀ (k : Nat) (c : Char),
    (l.takeWhile f)[k]? = some c → l[k]? = some c := by
  induction l with
  | nil => intro k c h; simp at h
  | cons x xs ih =>
    intro k c h
    by_cases hx : f x = true
    · simp only [List.takeWhile_cons, hx, if_true] at h
      cases k with
      | zero => simpa using h
      | succ k => simpa using ih k c (by simpa using h)
    · simp [List.takeWhile_cons, hx] at h

theorem upToSemicolon_nil : upToSemicolon [] = [] := rfl

theorem upToSemicolon_cons (x : Char) (s : List Char) :
    upToSemicolon (x :: s) = if x = ';' then [] else x :: upToSemicolon s := by
  unfold upToSemicolon
  by_cases hx : x = ';'
  · simp [List.takeWhile_cons, hx]
  · simp [List.takeWhile_cons, hx]

theorem semicolon_ne_NUL : (';' : Char) ≠ NUL := by decide

/-- Overwriting a `;` with the terminator leaves the text up to the next `;`
of the string unchanged. -/
theorem set_semicolon_upTo (l : List Char) : ∀ k : Nat, l[k]? = some ';' →
    upToSemicolon ((l.set k NUL).takeWhile (fun c => c != NUL)) =
      upToSemicolon (l.takeWhile (fun c => c != NUL)) := by
  induction l with
  | nil => intro k h; simp at h
  | cons x xs ih =>
    intro k h
    cases k with
    | zero =>
      simp only [List.getElem?_cons_zero, Option.some.injEq] at h
      subst h
      simp [List.takeWhile_cons, upToSemicolon_cons, upToSemicolon_nil, semicolon_ne_NUL]
    | succ k =>
      simp only [List.getElem?_cons_succ] at h
      simp only [List.set_cons_succ, List.takeWhile_cons]
      by_cases hx : (x != NUL) = true
      · simp only [hx, if_true, upToSemicolon_cons, ih k h]
      · simp [hx]

/-- Overwriting a `;` with the terminator leaves a string that holds no `;` unchanged. -/
theorem set_semicolon_stable (l : List Char) : ∀ k : Nat, l[k]? = some ';' →
    (∀ c ∈ l.takeWhile (fun c => c != NUL), c ≠ ';') →
    (l.set k NUL).takeWhile (fun c => c != NUL) = l.takeWhile (fun c => c != NUL) := by
  induction l with
  | nil => intro k h; simp at h
  | cons x xs ih =>
    intro k h hno
    cases k with
    | zero =>
      simp only [List.getElem?_cons_zero, Option.some.injEq] at h
      subst h
      exfalso
      exact hno ';' (by simp [List.takeWhile_cons, semicolon_ne_NUL]) rfl
    | succ k =>
      simp only [List.getElem?_cons_succ] at h
      simp only [List.set_cons_succ, List.takeWhile_cons]
      by_cases hx : (x != NUL) = true
      · simp only [hx, if_true, List.cons.injEq, true_and]
        apply ih k h
        intro c hc
        apply hno c
        simp only [List.takeWhile_cons, hx, if_true]
        exact List.mem_cons_of_mem _ hc
      · simp [hx]

/-- Overwriting the first `;` of a string with the terminator cuts the string there. -/
theorem set_first_semicolon (l : List Char) : ∀ k : Nat,
    findChar ';' (l.takeWhile (fun c => c != NUL)) = some k →
    (l.set k NUL).takeWhile (fun c => c != NUL) =
      upToSemicolon (l.takeWhile (fun c => c != NUL)) := by
  induction l with
  | nil => intro k h; simp [findChar] at h
  | cons x xs ih =>
    intro k h
    by_cases hx : (x != NUL) = true
    · simp only [List.takeWhile_cons, hx, if_true] at h ⊢
      unfold findChar at h
      by_cases hs : x = ';'
      · simp only [hs, if_true, Option.some.injEq] at h
        subst h
        simp [upToSemicolon_cons, hs, List.takeWhile_cons]
      · simp only [hs, if_false, Option.map_eq_some'] at h
        obtain ⟨j, hj, rfl⟩ := h
        simp only [List.set_cons_succ, List.takeWhile_cons, hx, if_true, upToSemicolon_cons, hs,
          if_false, ih j hj]
    · simp [List.takeWhile_cons, hx, findChar] at h

theorem upToSemicolon_of_no_semicolon (s : List Char) (h : ∀ c ∈ s, c ≠ ';') :
    upToSemicolon s = s := by
  unfold upToSemicolon
  rw [List.takeWhile_eq_self_iff]
  intro c hc
  simpa using h c hc

theorem upToSemicolon_no_semicolon (s : List Char) : ∀ c ∈ upToSemicolon s, c ≠ ';' := by
  intro c hc
  unfold upToSemicolon at hc
  simpa using List.mem_takeWhile_imp hc

theorem upToSemicolon_idem (s : List Char) : upToSemicolon (upToSemicolon s) = upToSemicolon s :=
  upToSemicolon_of_no_semicolon _ (upToSemicolon_no_semicolon s)

/-- What `terminateAtSemicolon` does to the buffer: nothing, or one `;` becomes the
terminator. -/
theorem terminateAtSemicolon_shape (buf : List Char) (p : Nat) :
    (terminateAtSemicolon buf p = buf ∧ findChar ';' (cstr buf p) = none) ∨
    ∃ k, findChar ';' (cstr buf p) = some k ∧ terminateAtSemicolon buf p = buf.set (k + p) NUL ∧
      buf[k + p]? = some ';' := by
  unfold terminateAtSemicolon strchr
  cases hf : findChar ';' (cstr buf p) with
  | none => left; simp
  | some k =>
    right
    refine ⟨k, rfl, by simp, ?_⟩
    have h1 := findChar_some _ _ k hf
    unfold cstr at h1
    have h2 := takeWhile_getElem _ _ k _ h1
    rw [List.getElem?_drop] at h2
    rw [Nat.add_comm]; exact h2

theorem cstr_set (buf : List Char) (p q : Nat) :
    cstr (buf.set q NUL) p =
      if q < p then cstr buf p else ((buf.drop p).set (q - p) NUL).takeWhile (fun c => c != NUL) := by
  unfold cstr
  rw [List.drop_set]
  split_ifs <;> rfl

theorem getElem_drop_of_le (buf : List Char) (p q : Nat) (c : Char) (hpq : p ≤ q)
    (h : buf[q]? = some c) : (buf.drop p)[q - p]? = some c := by
  rw [List.getElem?_drop]
  have : p + (q - p) = q := by omega
  rw [this]; exact h

/-- Terminating one field leaves the text up to the next `;` of every field unchanged. -/
theorem terminate_upTo (buf : List Char) (p' p : Nat) :
    upToSemicolon (cstr (terminateAtSemicolon buf p') p) = upToSemicolon (cstr buf p) := by
  rcases terminateAtSemicolon_shape buf p' with ⟨h, _⟩ | ⟨k, _, h, hk⟩
  · rw [h]
  · rw [h, cstr_set]
    split_ifs with hlt
    · rfl
    · exact set_semicolon_upTo _ _ (getElem_drop_of_le buf p (k + p') ';' (by omega) hk)

/-- Terminating one field leaves a field that holds no `;` unchanged. -/
theorem terminate_stable (buf : List Char) (p' p : Nat) (hno : ∀ c ∈ cstr buf p, c ≠ ';') :
    cstr (terminateAtSemicolon buf p') p = cstr buf p := by
  rcases terminateAtSemicolon_shape buf p' with ⟨h, _⟩ | ⟨k, _, h, hk⟩
  · rw [h]
  · rw [h, cstr_set]
    split_ifs with hlt
    · rfl
    · exact set_semicolon_stable _ _ (getElem_drop_of_le buf p (k + p') ';' (by omega) hk) hno

/-- Terminating a field cuts it at its first `;`. -/
theorem terminate_own (buf : List Char) (p : Nat) :
    cstr (terminateAtSemicolon buf p) p = upToSemicolon (cstr buf p) := by
  rcases terminateAtSemicolon_shape buf p with ⟨h, hnone⟩ | ⟨k, hf, h, _⟩
  · rw [h, upToSemicolon_of_no_semicolon _ (findChar_none _ _ hnone)]
  · rw [h, cstr_set]
    have : ¬ k + p < p := by omega
    rw [if_neg this]
    have hk : k + p - p = k := by omega
    rw [hk]
    exact set_first_semicolon _ k hf

theorem strstr_none_of_not_occursIn (buf key : List Char) (h : ¬ occursIn key (cstr buf 0)) :
    strstr buf 0 key = none := by
  rw [strstr_zero]
  cases hf : findSub key (cstr buf 0) with
  | none => rfl
  | some i =>
    exfalso
    exact h ⟨_, _, (findSub_some key _ i hf).2.1⟩

/-- A key that the search finds has a first occurrence, the one the search returns. -/
theorem firstOccurrence_of_findSub (key s : List Char) (i : Nat) (h : findSub key s = some i) :
    firstOccurrence key s (s.take i) (s.drop (i + key.length)) := by
  obtain ⟨h1, h2, h3⟩ := findSub_some key s i h
  refine ⟨h2, fun pre2 post2 hs => ?_⟩
  have := h3 pre2 post2 hs
  simp only [List.length_take]
  omega

theorem occursIn_iff_firstOccurrence (key s : List Char) :
    occursIn key s ↔ ∃ pre post, firstOccurrence key s pre post := by
  constructor
  · intro h
    cases hf : findSub key s with
    | none => exact absurd h (findSub_none key s hf)
    | some i => exact ⟨_, _, firstOccurrence_of_findSub key s i hf⟩
  · rintro ⟨pre, post, h, _⟩
    exact ⟨pre, post, h⟩

theorem parseDeviceId_make_some (buf : List Char) (serialLength : Int) (temp : List Char)
    (pm : Nat) (h : findMake buf = some pm) :
    (parseDeviceId buf serialLength temp).make = upToSemicolon (cstr buf pm) := by
  have hno : ∀ b : List Char, ∀ c ∈ cstr (terminateAtSemicolon b pm) pm, c ≠ ';' := by
    intro b
    rw [terminate_own]
    exact upToSemicolon_no_semicolon _
  cases hs : findSerial buf <;> cases hm : findModel buf <;>
    simp only [parseDeviceId, h, hs, hm]
  · rw [terminate_own]
  · rw [terminate_stable _ _ _ (hno _), terminate_own]
  · rw [terminate_own, terminate_upTo]
  · rw [terminate_stable _ _ _ (hno _), terminate_own, terminate_upTo]

theorem parseDeviceId_make_none (buf : List Char) (serialLength : Int) (temp : List Char)
    (h : findMake buf = none) :
    (parseDeviceId buf serialLength temp).make = "Unknown".toList := by
  simp only [parseDeviceId, h]

theorem parseDeviceId_model_some (buf : List Char) (serialLength : Int) (temp : List Char)
    (pm : Nat) (h : findModel buf = some pm) :
    (parseDeviceId buf serialLength temp).model = upToSemicolon (cstr buf pm) := by
  cases hs : findSerial buf <;> cases hm : findMake buf <;>
    simp only [parseDeviceId, h, hs, hm]
  · rw [terminate_own]
  · rw [terminate_own, terminate_upTo]
  · rw [terminate_own, terminate_upTo]
  · rw [terminate_own, terminate_upTo, terminate_upTo]

theorem parseDeviceId_model_none (buf : List Char) (serialLength : Int) (temp : List Char)
    (h : findModel buf = none) :
    (parseDeviceId buf serialLength temp).model = "Unknown".toList := by
  simp only [parseDeviceId, h]

theorem findMake_long (buf pre post : List Char)
    (h : firstOccurrence "MANUFACTURER:".toList (cstr buf 0) pre post) :
    findMake buf = some (pre.length + 13) ∧
      upToSemicolon (cstr buf (pre.length + 13)) = upToSemicolon post := by
  obtain ⟨h1, h2⟩ := field_after_key buf _ pre post h
  exact ⟨by simp only [findMake, h1], h2⟩

theorem findMake_short (buf pre post : List Char)
    (hno : ¬ occursIn "MANUFACTURER:".toList (cstr buf 0))
    (h : firstOccurrence "MFG:".toList (cstr buf 0) pre post) :
    findMake buf = some (pre.length + 4) ∧
      upToSemicolon (cstr buf (pre.length + 4)) = upToSemicolon post := by
  obtain ⟨h1, h2⟩ := field_after_key buf _ pre post h
  refine ⟨?_, h2⟩
  simp only [findMake, strstr_none_of_not_occursIn buf _ hno, h1, Option.map_some']

theorem findMake_absent (buf : List Char)
    (hno : ¬ occursIn "MANUFACTURER:".toList (cstr buf 0))
    (hno2 : ¬ occursIn "MFG:".toList (cstr buf 0)) : findMake buf = none := by
  simp only [findMake, strstr_none_of_not_occursIn buf _ hno,
    strstr_none_of_not_occursIn buf _ hno2, Option.map_none']

theorem findModel_long (buf pre post : List Char)
    (h : firstOccurrence "MODEL:".toList (cstr buf 0) pre post) :
    findModel buf = some (pre.length + 6) ∧
      upToSemicolon (cstr buf (pre.length + 6)) = upToSemicolon post := by
  obtain ⟨h1, h2⟩ := field_after_key buf _ pre post h
  exact ⟨by simp only [findModel, h1], h2⟩

theorem findModel_short (buf pre post : List Char)
    (hno : ¬ occursIn "MODEL:".toList (cstr buf 0))
    (h : firstOccurrence "MDL:".toList (cstr buf 0) pre post) :
    findModel buf = some (pre.length + 4) ∧
      upToSemicolon (cstr buf (pre.length + 4)) = upToSemicolon post := by
  obtain ⟨h1, h2⟩ := field_after_key buf _ pre post h
  refine ⟨?_, h2⟩
  simp only [findModel, strstr_none_of_not_occursIn buf _ hno, h1, Option.map_some']

theorem findModel_absent (buf : List Char)
    (hno : ¬ occursIn "MODEL:".toList (cstr buf 0))
    (hno2 : ¬ occursIn "MDL:".toList (cstr buf 0)) : findModel buf = none := by
  simp only [findModel, strstr_none_of_not_occursIn buf _ hno,
    strstr_none_of_not_occursIn buf _ hno2, Option.map_none']

/-- C11: for every Device ID string held in the buffer, the make is the text after the
first occurrence of `MANUFACTURER:`, or when that key is absent of `MFG:`, up to the next
`;` or the end of the string, and is `Unknown` when neither key occurs; the model likewise
for `MODEL:` and `MDL:`.  The terminators written for the serial and for the other field do
not change either value: each is what terminating that field alone in the untouched buffer
gives. -/
theorem parseDeviceId_make_model (buf : List Char) (serialLength : Int) (temp : List Char) :
    (∀ pre post, firstOccurrence "MANUFACTURER:".toList (cstr buf 0) pre post →
      (parseDeviceId buf serialLength temp).make = upToSemicolon post) ∧
    (¬ occursIn "MANUFACTURER:".toList (cstr buf 0) →
      ∀ pre post, firstOccurrence "MFG:".toList (cstr buf 0) pre post →
        (parseDeviceId buf serialLength temp).make = upToSemicolon post) ∧
    (¬ occursIn "MANUFACTURER:".toList (cstr buf 0) → ¬ occursIn "MFG:".toList (cstr buf 0) →
      (parseDeviceId buf serialLength temp).make = "Unknown".toList) ∧
    (∀ pre post, firstOccurrence "MODEL:".toList (cstr buf 0) pre post →
      (parseDeviceId buf serialLength temp).model = upToSemicolon post) ∧
    (¬ occursIn "MODEL:".toList (cstr buf 0) →
      ∀ pre post, firstOccurrence "MDL:".toList (cstr buf 0) pre post →
        (parseDeviceId buf serialLength temp).model = upToSemicolon post) ∧
    (¬ occursIn "MODEL:".toList (cstr buf 0) → ¬ occursIn "MDL:".toList (cstr buf 0) →
      (parseDeviceId buf serialLength temp).model = "Unknown".toList) ∧
    (∀ p, findMake buf = some p →
      (parseDeviceId buf serialLength temp).make = cstr (terminateAtSemicolon buf p) p) ∧
    (∀ p, findModel buf = some p →
      (parseDeviceId buf serialLength temp).model = cstr (terminateAtSemicolon buf p) p) := by
  refine ⟨?_, ?_, ?_, ?_, ?_, ?_, ?_, ?_⟩
  · intro pre post h
    obtain ⟨h1, h2⟩ := findMake_long buf pre post h
    rw [parseDeviceId_make_some buf serialLength temp _ h1, h2]
  · intro hno pre post h
    obtain ⟨h1, h2⟩ := findMake_short buf pre post hno h
    rw [parseDeviceId_make_some buf serialLength temp _ h1, h2]
  · intro hno hno2
    exact parseDeviceId_make_none buf serialLength temp (findMake_absent buf hno hno2)
  · intro pre post h
    obtain ⟨h1, h2⟩ := findModel_long buf pre post h
    rw [parseDeviceId_model_some buf serialLength temp _ h1, h2]
  · intro hno pre post h
    obtain ⟨h1, h2⟩ := findModel_short buf pre post hno h
    rw [parseDeviceId_model_some buf serialLength temp _ h1, h2]
  · intro hno hno2
    exact parseDeviceId_model_none buf serialLength temp (findModel_absent buf hno hno2)
  · intro p h
    rw [parseDeviceId_make_some buf serialLength temp p h, terminate_own]
  · intro p h
    rw [parseDeviceId_model_some buf serialLength temp p h, terminate_own]

/-- C11 at a buffer whose serial field comes first: the long make key occurs only after
the terminator, so the make is read after `MFG:`, and the model after `MODEL:`. -/
theorem parseDeviceId_make_model_witness :
    ¬ occursIn "MANUFACTURER:".toList (cstr serialFirstDeviceId 0) ∧
    firstOccurrence "MFG:".toList (cstr serialFirstDeviceId 0) "SN:ABC123;".toList
      "Acme;MODEL:LaserStar 9;CMD:PCL;".toList ∧
    firstOccurrence "MODEL:".toList (cstr serialFirstDeviceId 0) "SN:ABC123;MFG:Acme;".toList
      "LaserStar 9;CMD:PCL;".toList ∧
    (parseDeviceId serialFirstDeviceId 0 []).make = "Acme".toList ∧
    (parseDeviceId serialFirstDeviceId 0 []).model = "LaserStar 9".toList :=
  have hno : ¬ occursIn "MANUFACTURER:".toList (cstr serialFirstDeviceId 0) :=
    findSub_none _ _ (by decide)
  have hmfg : firstOccurrence "MFG:".toList (cstr serialFirstDeviceId 0) "SN:ABC123;".toList
      "Acme;MODEL:LaserStar 9;CMD:PCL;".toList :=
    firstOccurrence_of_findSub "MFG:".toList (cstr serialFirstDeviceId 0) 10 (by decide)
  have hmodel : firstOccurrence "MODEL:".toList (cstr serialFirstDeviceId 0)
      "SN:ABC123;MFG:Acme;".toList "LaserStar 9;CMD:PCL;".toList :=
    firstOccurrence_of_findSub "MODEL:".toList (cstr serialFirstDeviceId 0) 19 (by decide)
  ⟨hno, hmfg, hmodel,
    ((parseDeviceId_make_model serialFirstDeviceId 0 []).2.1 hno _ _ hmfg).trans (by decide),
    ((parseDeviceId_make_model serialFirstDeviceId 0 []).2.2.2.1 _ _ hmodel).trans (by decide)⟩
end Pappl
